import Mathlib

/-!
Shallow embedding of the Astrochat conversational intake state machine
(`src/frontend/src/components/ExpandableChat.js`) and of the birth-detail form
(`src/frontend/src/components/UserDataForm.js`).

Conventions of the embedding:
* Strings are processed as `List Char` (`String.data`); JavaScript regular
  expressions are rendered as hand-written matchers that reproduce the engine's
  leftmost-match search, ordered alternation and greedy/lazy backtracking for
  the concrete patterns appearing in the source.
* The component's `useState`/`useRef` cells are gathered into a `Session`
  record; every event handler becomes a function `Session → Session` (plus an
  environment record carrying the remote responses, the random draw and the
  measured latency).  Execution is single threaded and event driven (spec §5),
  so each handler is modelled as one atomic state transition whose waits
  (`setTimeout`) do not alter the state.
* `Math.max(0, a - b)` on non-negative quantities is Nat truncated subtraction.
-/

namespace Astrochat

/-! ### JavaScript character classes and string primitives -/

/-- The apostrophe character (used in source patterns and message texts). -/
def apos : Char := Char.ofNat 39

/-- JS `\s` (the code points relevant to chat input). -/
def jsWs (c : Char) : Bool :=
  c = ' ' || c = '\t' || c = '\n' || c = '\r' || c = '\x0b' || c = '\x0c' || c = ' '

/-- JS `\w` (word character, used by `\b`). -/
def isWordC (c : Char) : Bool :=
  c.isAlpha || c.isDigit || c = '_'

/-- `\b`: a word boundary between an optional previous and next character. -/
def boundary (prev next : Option Char) : Bool :=
  (prev.elim false isWordC) != (next.elim false isWordC)

/-- `(?:^|\b)` checked at a position: start of input or a word boundary. -/
def startOk (prev next : Option Char) : Bool :=
  prev.isNone || boundary prev next

/-- JS `String.prototype.trim` on a character list. -/
def jsTrimL (l : List Char) : List Char :=
  ((l.dropWhile jsWs).reverse.dropWhile jsWs).reverse

/-- Numeric value of a digit string (`parseInt(s, 10)` on an all-digit capture). -/
def natOfDigits (l : List Char) : Nat :=
  l.foldl (fun a c => a * 10 + (c.toNat - 48)) 0

/-- `padStart(2, '0')` on a captured digit string. -/
def pad2 (l : List Char) : List Char :=
  if l.length < 2 then '0' :: l else l

/-- `n.toString().padStart(2, '0')`. -/
def natPad2 (n : Nat) : String :=
  if n < 10 then "0" ++ toString n else toString n

/-- Case-insensitive literal: strip `pat` (given in lower case) from the head. -/
def stripCI : List Char → List Char → Option (List Char)
  | [], l => some l
  | _ :: _, [] => none
  | p :: ps, c :: cs => if c.toLower = p then stripCI ps cs else none

/-- `\s+`: at least one whitespace (greedily consumed; every pattern using it is
followed by a non-whitespace token, so only the maximal run can succeed). -/
def ws1 : List Char → Option (List Char)
  | [] => none
  | c :: cs => if jsWs c then some (cs.dropWhile jsWs) else none

/-- `/pat/i.test(s)`: case-insensitive substring test. -/
def hasSubstrCI (pat : List Char) : List Char → Bool
  | [] => (stripCI pat []).isSome
  | c :: cs => (stripCI pat (c :: cs)).isSome || hasSubstrCI pat cs

/-- Leftmost-position regex search: try the matcher at each suffix in order. -/
def scan {β : Type} (f : List Char → Option β) : List Char → Option β
  | [] => f []
  | c :: cs =>
    match f (c :: cs) with
    | some b => some b
    | none => scan f cs

/-- Leftmost-position search that also tracks the character before the current
position (needed for `\b` / `(?:^|\b)`). -/
def scanB {β : Type} (f : Option Char → List Char → Option β) :
    Option Char → List Char → Option β
  | prev, [] => f prev []
  | prev, c :: cs =>
    match f prev (c :: cs) with
    | some b => some b
    | none => scanB f (some c) cs

/-- Greedy `(\d{1,2})`: the candidate (capture, rest) splits in the order the
JS engine tries them (two digits first, then one). -/
def digits12 : List Char → List (List Char × List Char)
  | [] => []
  | [c] => if c.isDigit then [([c], [])] else []
  | c1 :: c2 :: rest =>
    if c1.isDigit && c2.isDigit then [([c1, c2], rest), ([c1], c2 :: rest)]
    else if c1.isDigit then [([c1], c2 :: rest)]
    else []

/-- `(\d{2})`: exactly two digits. -/
def digits2 : List Char → Option (List Char × List Char)
  | c1 :: c2 :: rest => if c1.isDigit && c2.isDigit then some ([c1, c2], rest) else none
  | _ => none

/-- `(\d{4})`: exactly four digits. -/
def digits4 : List Char → Option (List Char × List Char)
  | a :: b :: c :: d :: rest =>
    if a.isDigit && b.isDigit && c.isDigit && d.isDigit then some ([a, b, c, d], rest) else none
  | _ => none

/-! ### Time-of-birth parser (`parseTob`) -/

/-- Optional `(am|pm)?` (case-insensitive); the capture keeps the original case. -/
def ampmOpt : List Char → Option (List Char)
  | a :: b :: _ =>
    if (a.toLower = 'a' || a.toLower = 'p') && b.toLower = 'm' then some [a, b] else none
  | _ => none

/-- Match of `/(\d{1,2}):(\d{2})(?::(\d{2}))?\s*(am|pm)?/i` at the head of `l`,
returning the captures `(m1, m2, m3, m4)`. -/
def tobColonAt (l : List Char) : Option (List Char × List Char × Option (List Char) × Option (List Char)) :=
  (digits12 l).findSome? fun (d1, r1) =>
    match r1 with
    | ':' :: r2 =>
      match digits2 r2 with
      | some (d2, r3) =>
        let (sec?, r4) :=
          match r3 with
          | ':' :: r3' =>
            match digits2 r3' with
            | some (d3, r4') => (some d3, r4')
            | none => (none, r3)
          | _ => (none, r3)
        some (d1, d2, sec?, ampmOpt (r4.dropWhile jsWs))
      | none => none
    | _ => none

/-- Match of `/(\d{1,2})[\.\s](\d{2})\s*(am|pm)?/i` at the head of `l`,
returning the captures `(m1, m2, m3)` (here `m3` is the am/pm group). -/
def tobDotAt (l : List Char) : Option (List Char × List Char × Option (List Char)) :=
  (digits12 l).findSome? fun (d1, r1) =>
    match r1 with
    | c :: r2 =>
      if c = '.' || jsWs c then
        match digits2 r2 with
        | some (d2, r3) => some (d1, d2, ampmOpt (r3.dropWhile jsWs))
        | none => none
      else none
    | [] => none

/-- `parseTob` (ExpandableChat.js lines 238-251).  Tries the colon form, then the
dot/space form; the captures feed `hour`, `minute`, `sec = m[3] || '00'` and
`period = (m[4] || m[3]) || ''` exactly as the source does. -/
def parseTob (text : String) : Option String :=
  let groups : Option (List Char × List Char × Option (List Char) × Option (List Char)) :=
    match scan tobColonAt text.data with
    | some g => some g
    | none =>
      match scan tobDotAt text.data with
      | some (d1, d2, ap?) => some (d1, d2, ap?, none)
      | none => none
  match groups with
  | none => none
  | some (m1, m2, m3, m4) =>
    let hour0 := natOfDigits m1
    let sec := m3.getD ['0', '0']
    let period := m4.getD (m3.getD [])
    let hour1 := if hasSubstrCI ['p', 'm'] period && hour0 ≠ 12 then hour0 + 12 else hour0
    let hour := if hasSubstrCI ['a', 'm'] period && hour1 = 12 then 0 else hour1
    if hour ≤ 23 then
      some (natPad2 hour ++ ":" ++ m2.asString ++ ":" ++ sec.asString)
    else none

/-! ### Name parser (`parseName`) -/

/-- The capture class `[a-zA-Z\s'.-]` of the name patterns. -/
def nameClass (c : Char) : Bool :=
  c.isAlpha || jsWs c || c = apos || c = '.' || c = '-'

/-- The Hindi copula alternation `(hai|hun|hu|hoon)` in source order. -/
def copulas : List (List Char) :=
  [['h', 'a', 'i'], ['h', 'u', 'n'], ['h', 'u'], ['h', 'o', 'o', 'n']]

/-- `(?:\s+(?:hai|hun|hu|hoon))\b` matched at `l` (the greedy optional tail of
name pattern 1, including the closing word boundary). -/
def copulaEnd (l : List Char) : Bool :=
  match ws1 l with
  | none => false
  | some r =>
    copulas.any fun w =>
      match stripCI w r with
      | some r2 => !(r2.head?.elim false isWordC)
      | none => false

/-- The lazy capture `([a-zA-Z][a-zA-Z\s'.-]*?)` of name pattern 1: grow the
capture one character at a time, at each length trying first the greedy
optional copula tail and then the bare `\b`, as the JS engine backtracks. -/
def lazyCapP1 (acc : List Char) : List Char → Option (List Char)
  | [] =>
    if copulaEnd [] then some acc
    else if boundary acc.getLast? none then some acc
    else none
  | c :: cs =>
    if copulaEnd (c :: cs) then some acc
    else if boundary acc.getLast? (some c) then some acc
    else if nameClass c then lazyCapP1 (acc ++ [c]) cs
    else none

/-- `/(?:^|\b)mera\s+naam\s+([a-zA-Z][a-zA-Z\s'.-]*?)(?:\s+(?:hai|hun|hu|hoon))?\b/i`
tried at one position. -/
def nameP1At (prev : Option Char) (l : List Char) : Option (List Char) :=
  if startOk prev l.head? then
    match stripCI ['m', 'e', 'r', 'a'] l with
    | none => none
    | some r1 =>
      match ws1 r1 with
      | none => none
      | some r2 =>
        match stripCI ['n', 'a', 'a', 'm'] r2 with
        | none => none
        | some r3 =>
          match ws1 r3 with
          | none => none
          | some r4 =>
            match r4 with
            | c :: rest => if c.isAlpha then lazyCapP1 [c] rest else none
            | [] => none
  else none

/-- `([a-zA-Z][a-zA-Z\s'.-]+)$`: a to-end capture of at least two characters. -/
def capToEnd (l : List Char) : Option (List Char) :=
  match l with
  | c :: rest =>
    if c.isAlpha && !rest.isEmpty && rest.all nameClass then some (c :: rest) else none
  | [] => none

/-- `/(?:^|\b)my\s+name\s+is\s+([a-zA-Z][a-zA-Z\s'.-]+)$/i` tried at one position. -/
def nameP2At (prev : Option Char) (l : List Char) : Option (List Char) :=
  if startOk prev l.head? then
    match stripCI ['m', 'y'] l with
    | none => none
    | some r1 =>
      match ws1 r1 with
      | none => none
      | some r2 =>
        match stripCI ['n', 'a', 'm', 'e'] r2 with
        | none => none
        | some r3 =>
          match ws1 r3 with
          | none => none
          | some r4 =>
            match stripCI ['i', 's'] r4 with
            | none => none
            | some r5 =>
              match ws1 r5 with
              | none => none
              | some r6 => capToEnd r6
  else none

/-- `/^(?:i\s*am|i'm)\s+([a-zA-Z][a-zA-Z\s'.-]+)$/i` (alternatives in order,
with backtracking into the second when the first alternative's tail fails). -/
def nameP3 (l : List Char) : Option (List Char) :=
  let viaIAm : Option (List Char) :=
    match stripCI ['i'] l with
    | none => none
    | some r1 =>
      match stripCI ['a', 'm'] (r1.dropWhile jsWs) with
      | none => none
      | some r2 =>
        match ws1 r2 with
        | none => none
        | some r3 => capToEnd r3
  match viaIAm with
  | some cap => some cap
  | none =>
    match stripCI ['i', apos, 'm'] l with
    | none => none
    | some r1 =>
      match ws1 r1 with
      | none => none
      | some r2 => capToEnd r2

/-- `/^([a-zA-Z][a-zA-Z\s'.-]{1,})$/` (bare-name fallback). -/
def nameP4 (l : List Char) : Option (List Char) :=
  capToEnd l

/-- `/\b(hai|hun|hu|hoon)\b\.?$/i` matched at one position (used by `cleanup`'s
`replace`): copula with a word boundary before and after, an optional dot, then
end of string. -/
def copulaTailAt (prev : Option Char) (l : List Char) : Bool :=
  boundary prev l.head? &&
  copulas.any fun w =>
    match stripCI w l with
    | some [] => true
    | some ['.'] => true
    | _ => false

/-- `raw.replace(/\b(hai|hun|hu|hoon)\b\.?$/i, '')`: drop the leftmost (hence
only) end-anchored copula tail, keeping the prefix before it. -/
def stripCopulaEnd (l : List Char) : List Char :=
  go none [] l
where
  go (prev : Option Char) (accRev : List Char) : List Char → List Char
    | [] => accRev.reverse
    | c :: cs =>
      if copulaTailAt prev (c :: cs) then accRev.reverse
      else go (some c) (c :: accRev) cs

/-- `replace(/[.,;:!?]+$/g, '')`: drop the maximal trailing punctuation run. -/
def dropTrailPunct (l : List Char) : List Char :=
  (l.reverse.dropWhile fun c => c = '.' || c = ',' || c = ';' || c = ':' || c = '!' || c = '?').reverse

/-- `replace(/\s{2,}/g, ' ')`: every run of two or more whitespace characters
becomes a single space; single whitespace characters are kept as they are. -/
def collapseWsGo (inRun : Bool) : List Char → List Char
  | [] => []
  | c :: cs =>
    if jsWs c then
      if inRun then collapseWsGo true cs
      else if cs.head?.elim false jsWs then ' ' :: collapseWsGo true cs
      else c :: collapseWsGo false cs
    else c :: collapseWsGo false cs

def collapseWs (l : List Char) : List Char :=
  collapseWsGo false l

/-- The `cleanup` helper of `parseName`. -/
def cleanup (raw : List Char) : Option String :=
  if raw.isEmpty then none
  else
    let name1 := jsTrimL (stripCopulaEnd raw)
    let name2 := jsTrimL (dropTrailPunct name1)
    let name3 := collapseWs name2
    if name3.isEmpty then none else some name3.asString

/-- `parseName` (ExpandableChat.js lines 183-213): the four patterns in order,
each returning `cleanup(m[1])` on its first match. -/
def parseName (text : String) : Option String :=
  let input := jsTrimL text.data
  match scanB nameP1At none input with
  | some cap => cleanup cap
  | none =>
    match scanB nameP2At none input with
    | some cap => cleanup cap
    | none =>
      match nameP3 input with
      | some cap => cleanup cap
      | none =>
        match nameP4 input with
        | some cap => cleanup cap
        | none => none

/-! ### Date-of-birth parser (`parseDob`) -/

/-- The separator class `[\/\-\.]`. -/
def isSep (c : Char) : Bool :=
  c = '/' || c = '-' || c = '.'

/-- Match of `/(\d{4})[\/\-\.](\d{1,2})[\/\-\.](\d{1,2})/` at the head of `l`. -/
def dobYmdAt (l : List Char) : Option (List Char × List Char × List Char) :=
  match digits4 l with
  | none => none
  | some (y, r1) =>
    match r1 with
    | c :: r2 =>
      if isSep c then
        (digits12 r2).findSome? fun (mo, r3) =>
          match r3 with
          | c2 :: r4 =>
            if isSep c2 then (digits12 r4).findSome? fun (d, _) => some (y, mo, d)
            else none
          | [] => none
      else none
    | [] => none

/-- Match of `/(\d{1,2})[\/\-\.](\d{1,2})[\/\-\.](\d{4})/` at the head of `l`. -/
def dobDmyAt (l : List Char) : Option (List Char × List Char × List Char) :=
  (digits12 l).findSome? fun (d1, r1) =>
    match r1 with
    | c :: r2 =>
      if isSep c then
        (digits12 r2).findSome? fun (d2, r3) =>
          match r3 with
          | c2 :: r4 =>
            if isSep c2 then (digits4 r4).map fun (y, _) => (d1, d2, y)
            else none
          | [] => none
      else none
    | [] => none

/-- The month-name alternation of the third date pattern, in source order
(full names before abbreviations). -/
def monthNames : List String :=
  ["january", "february", "march", "april", "may", "june", "july", "august",
   "september", "october", "november", "december"]

def monthShort : List String :=
  ["jan", "feb", "mar", "apr", "may", "jun", "jul", "aug", "sep", "oct", "nov", "dec"]

/-- Match of `/(\d{1,2})\s+(january|...|dec)\s+(\d{4})/i` at the head of `l`;
the month capture is returned lower-cased (the source lower-cases it before
the index lookup). -/
def dobMonAt (l : List Char) : Option (List Char × String × List Char) :=
  (digits12 l).findSome? fun (d1, r1) =>
    match ws1 r1 with
    | none => none
    | some r2 =>
      (monthNames ++ monthShort).findSome? fun name =>
        match stripCI name.data r2 with
        | none => none
        | some r3 =>
          match ws1 r3 with
          | none => none
          | some r4 => (digits4 r4).map fun (y, _) => (d1, name, y)

/-- `monthNames.indexOf(x) !== -1 ? i+1 : monthShort.indexOf(x)+1`. -/
def monthIndex (name : String) : Nat :=
  match monthNames.findIdx? (· = name) with
  | some i => i + 1
  | none => ((monthShort.findIdx? (· = name)).map (· + 1)).getD 0

/-- `parseDob` (ExpandableChat.js lines 215-236). -/
def parseDob (text : String) : Option String :=
  match scan dobYmdAt text.data with
  | some (y, mo, d) => some (y.asString ++ "-" ++ (pad2 mo).asString ++ "-" ++ (pad2 d).asString)
  | none =>
    match scan dobDmyAt text.data with
    | some (d1, d2, y) =>
      -- `const a = parseInt(m[1]); const b = parseInt(m[2]); day = a; month = b`
      let day := natOfDigits d1
      let month := natOfDigits d2
      some (y.asString ++ "-" ++ natPad2 month ++ "-" ++ natPad2 day)
    | none =>
      match scan dobMonAt text.data with
      | some (d1, name, y) =>
        some (y.asString ++ "-" ++ natPad2 (monthIndex name) ++ "-" ++ (pad2 d1).asString)
      | none => none

/-! ### Place parser (`parsePlace`) -/

/-- The capture class `[a-zA-Z\s,.'-]` of the labelled place pattern. -/
def placeClass (c : Char) : Bool :=
  c.isAlpha || jsWs c || c = ',' || c = '.' || c = apos || c = '-'

/-- `([a-zA-Z][a-zA-Z\s,.'-]+)`: greedy capture of at least two characters. -/
def placeCap (l : List Char) : Option (List Char) :=
  match l with
  | c :: rest =>
    if c.isAlpha then
      let more := rest.takeWhile placeClass
      if more.isEmpty then none else some (c :: more)
    else none
  | [] => none

/-- Match of
`/(?:place|sthan|city|town|birth\s*place|janm\s*sthan|from|in)\s*:?\s*([a-zA-Z][a-zA-Z\s,.'-]+)/i`
at the head of `l` (alternatives in source order, each continued by the
common `\s*:?\s*` + capture tail). -/
def placeAt (l : List Char) : Option (List Char) :=
  let alts : List (List Char → Option (List Char)) :=
    [stripCI ['p', 'l', 'a', 'c', 'e'],
     stripCI ['s', 't', 'h', 'a', 'n'],
     stripCI ['c', 'i', 't', 'y'],
     stripCI ['t', 'o', 'w', 'n'],
     fun l0 =>
       match stripCI ['b', 'i', 'r', 't', 'h'] l0 with
       | some r => stripCI ['p', 'l', 'a', 'c', 'e'] (r.dropWhile jsWs)
       | none => none,
     fun l0 =>
       match stripCI ['j', 'a', 'n', 'm'] l0 with
       | some r => stripCI ['s', 't', 'h', 'a', 'n'] (r.dropWhile jsWs)
       | none => none,
     stripCI ['f', 'r', 'o', 'm'],
     stripCI ['i', 'n']]
  alts.findSome? fun alt =>
    match alt l with
    | none => none
    | some r0 =>
      let r1 := r0.dropWhile jsWs
      let r2 := match r1 with
        | ':' :: rr => rr
        | _ => r1
      placeCap (r2.dropWhile jsWs)

/-- `/^[a-zA-Z][a-zA-Z\s'.-]{2,}$/` (bare place fallback, at least 3 chars). -/
def placeFallback (l : List Char) : Option (List Char) :=
  match l with
  | c :: rest =>
    if c.isAlpha && rest.length ≥ 2 && rest.all nameClass then some (c :: rest) else none
  | [] => none

/-- `parsePlace` (ExpandableChat.js lines 253-260). -/
def parsePlace (text : String) : Option String :=
  match scan placeAt text.data with
  | some cap => some (jsTrimL cap).asString
  | none =>
    match placeFallback text.data with
    | some w => some (jsTrimL w).asString
    | none => none

/-! ### Command patterns of the dialog controller -/

/-- JS `.` (anything but a line terminator). -/
def lineChar (c : Char) : Bool :=
  !(c = '\n' || c = '\r' || c = Char.ofNat 0x2028 || c = Char.ofNat 0x2029)

/-- `\s*(.+)$` with the greedy `\s*` backtracking one step when everything
after it is whitespace (so that `.+` still gets one character). -/
def dotCapAfterWs (l : List Char) : Option (List Char) :=
  let tail := l.dropWhile jsWs
  if tail.isEmpty then
    match (l.takeWhile jsWs).getLast? with
    | some c => if lineChar c then some [c] else none
    | none => none
  else if tail.all lineChar then some tail else none

/-- The field alternation of the change command, in source order. -/
def fieldAlts : List String :=
  ["name", "naam", "dob", "date", "tob", "time", "samay", "place", "city", "sthan"]

/-- `/^change\s+(name|naam|dob|date|tob|time|samay|place|city|sthan)\s*[:\-]\s*(.+)$/i`;
returns the (lower-cased) field and the raw value capture. -/
def changeCmd (l : List Char) : Option (String × List Char) :=
  match stripCI ['c', 'h', 'a', 'n', 'g', 'e'] l with
  | none => none
  | some r1 =>
    match ws1 r1 with
    | none => none
    | some r2 =>
      fieldAlts.findSome? fun f =>
        match stripCI f.data r2 with
        | none => none
        | some r3 =>
          match r3.dropWhile jsWs with
          | c :: r5 =>
            if c = ':' || c = '-' then (dotCapAfterWs r5).map fun cap => (f, cap)
            else none
          | [] => none

/-- `/^(?:name|naam)\s*[:\-]\s*(.+)$/i` (explicit name correction in `ask_name`). -/
def nameCorrection (l : List Char) : Option (List Char) :=
  (["name", "naam"] : List String).findSome? fun f =>
    match stripCI f.data l with
    | none => none
    | some r3 =>
      match r3.dropWhile jsWs with
      | c :: r5 => if c = ':' || c = '-' then dotCapAfterWs r5 else none
      | [] => none

/-- `/^y(es)?$/i` applied to the trimmed input. -/
def yesRe (l : List Char) : Bool :=
  match l with
  | [c] => c.toLower = 'y'
  | [c1, c2, c3] => c1.toLower = 'y' && c2.toLower = 'e' && c3.toLower = 's'
  | _ => false

/-! ### Validity checks (`isValidDate` / `isValidTime`) -/

def isLeap (y : Nat) : Bool :=
  (y % 4 = 0 && y % 100 ≠ 0) || y % 400 = 0

def daysInMonth (y m : Nat) : Nat :=
  if m = 2 then (if isLeap y then 29 else 28)
  else if m = 4 || m = 6 || m = 9 || m = 11 then 30
  else 31

/-- `isValidDate` (ExpandableChat.js lines 335-341): the string must match
`/^(\d{4})-(\d{2})-(\d{2})$/` and `new Date(\`Y-M-DT00:00:00Z\`)` must be
valid.  For an ISO string of this shape the Date is invalid exactly when the
month or the day is out of calendar range. -/
def isValidDate (s : String) : Bool :=
  match s.data with
  | [y1, y2, y3, y4, '-', mo1, mo2, '-', d1, d2] =>
    (y1.isDigit && y2.isDigit && y3.isDigit && y4.isDigit &&
     mo1.isDigit && mo2.isDigit && d1.isDigit && d2.isDigit) &&
    (let y := natOfDigits [y1, y2, y3, y4]
     let mo := natOfDigits [mo1, mo2]
     let d := natOfDigits [d1, d2]
     decide (1 ≤ mo ∧ mo ≤ 12 ∧ 1 ≤ d ∧ d ≤ daysInMonth y mo))
  | _ => false

/-- `/^(\d{2}):(\d{2}):(\d{2})$/` on a character list. -/
def isValidTimeL : List Char → Bool
  | [h1, h2, ':', m1, m2, ':', s1, s2] =>
    h1.isDigit && h2.isDigit && m1.isDigit && m2.isDigit && s1.isDigit && s2.isDigit
  | _ => false

/-- `isValidTime` (ExpandableChat.js line 343). -/
def isValidTime (s : String) : Bool :=
  isValidTimeL s.data

/-- `HH:MM` with a two-digit hour — the value space of the HTML `<input
type="time">` control feeding the form. -/
def isHHMM : List Char → Bool
  | [h1, h2, ':', m1, m2] => h1.isDigit && h2.isDigit && m1.isDigit && m2.isDigit
  | _ => false

/-! ### Data model: profile, messages, session -/

inductive Sender where
  | user
  | pandit
deriving DecidableEq, Repr

/-- The birth profile (`userProfile` state). -/
structure Profile where
  name : String
  dob : String
  tob : String
  place : String
  timezone : String
deriving DecidableEq, Repr

def emptyProfile : Profile :=
  ⟨"", "", "", "", "Asia/Kolkata"⟩

/-- A transcript entry.  `isChart` models `type === 'chart'` (such messages also
carry the visual payload in `chartData`); `isTyping` models the synthetic
typing placeholder flag.  The display-only `timestamp` field is omitted. -/
structure Message where
  id : Nat
  text : String := ""
  sender : Sender
  isChart : Bool := false
  chartData : Option String := none
  isTyping : Bool := false
deriving DecidableEq, Repr

inductive Step where
  | ask_name
  | ask_dob
  | ask_tob
  | ask_place
  | confirm_details
  | generating
  | chart_generated
  | chatting
deriving DecidableEq, Repr

/-- The per-session state of `ExpandableChat`: the `useState` cells plus the
`messageIdRef` counter, the `hasGeneratedRef` one-shot latch and the pending
auto-generation debounce timer (`generationTimerRef`, holding the captured
birth details of the scheduled `generateKundli` call).  The transient
`inputText` cell is passed to `handleSendMessage` as an argument instead, and
the unused `editMode` flag is omitted. -/
structure Session where
  messages : List Message
  userProfile : Profile
  kundliData : Option String
  chartData : Option String
  isGeneratingKundli : Bool
  isGeneratingChart : Bool
  currentStep : Step
  hasGenerated : Bool
  generationTimer : Option Profile
  nextId : Nat
  isBotTyping : Bool
deriving DecidableEq, Repr

def panditM (id : Nat) (text : String) : Message :=
  { id := id, text := text, sender := .pandit }

def userM (id : Nat) (text : String) : Message :=
  { id := id, text := text, sender := .user }

def typingM (id : Nat) : Message :=
  { id := id, text := "Pandit ji typing...", sender := .pandit, isTyping := true }

def greeting1 : String :=
  "Jai Shri Ram 🙏 Swagat hai aapka AstroRemedis par. Main aapka digital Pandit Ji hoon."

def greeting2 : String :=
  "Aapka naam kya hai aur kis vishay par margdarshan chahte hain? Pehle apna naam batayiye (e.g., Mera naam Rajesh hai)."

def initialMessages : List Message :=
  [panditM 1 greeting1, panditM 2 greeting2]

/-- The state at mount (ExpandableChat.js lines 16-51). -/
def initialSession : Session :=
  { messages := initialMessages
    userProfile := emptyProfile
    kundliData := none
    chartData := none
    isGeneratingKundli := false
    isGeneratingChart := false
    currentStep := .ask_name
    hasGenerated := false
    generationTimer := none
    nextId := 3
    isBotTyping := false }

/-- Number of chart-kind messages in a transcript. -/
def chartCount (l : List Message) : Nat :=
  (l.filter fun m => m.isChart).length

/-- Does the transcript already contain a chart-kind message
(`prev.some(m => m.type === 'chart')`)? -/
def hasChart (l : List Message) : Bool :=
  l.any fun m => m.isChart

/-! ### Bot utterances (verbatim from the source; `sq` is the apostrophe) -/

def sq : String :=
  apos.toString

def askNameFailText : String :=
  "Kripya apna naam clear tarike se batayiye (e.g., Mera naam Anil hai)."

def askNameOkText (n : String) : String :=
  n ++ " ji, ab apni janm tithi batayiye (e.g., 15/05/1990 ya 15 May 1990)."

def askDobFailText : String :=
  "Janm tithi samajh nahi aayi. Kripya format mein batayein: DD/MM/YYYY ya 15 May 1990."

def askDobOkText : String :=
  "Shukriya. Ab apna janm samay batayiye (e.g., 2:30 PM ya 14:30)."

def askTobFailText : String :=
  "Janm samay samajh nahi aaya. Kripya format mein batayein: HH:MM AM/PM ya 24-hour (e.g., 14:30)."

def askTobOkText : String :=
  "Samay mil gaya. Ab apna janm sthan/city batayiye (e.g., Delhi, Mumbai)."

def askPlaceFailText : String :=
  "Janm sthan samajh nahi aaya. Kripya city ka naam batayein (e.g., Pune)."

/-- The confirmation summary emitted on entering `confirm_details`. -/
def confirmSummary (p : Profile) : String :=
  "Kripya confirm karein:\n- Naam: " ++ p.name ++ "\n- DOB: " ++ p.dob ++
  "\n- TOB: " ++ p.tob ++ "\n- Place: " ++ p.place ++
  "\nType karein: " ++ sq ++ "yes" ++ sq ++ " ya jis field ko change karna ho: " ++
  sq ++ "change name: <naya naam>" ++ sq

def confirmYesText : String :=
  "Bahut badiya! Main aapka Kundli chart generate kar raha hun..."

def dobInvalidText : String :=
  "Nayi DOB valid nahi hai. Example: 15/05/1990"

def tobInvalidText : String :=
  "Naya TOB valid nahi hai. Example: 2:30 PM ya 14:30"

def placeInvalidText : String :=
  "Naya place samajh nahi aaya. Example: Jaipur"

/-- The summary re-emitted after a change command. -/
def changeSummary (p : Profile) : String :=
  "Updated. Kripya confirm karein:\n- Naam: " ++ p.name ++ "\n- DOB: " ++ p.dob ++
  "\n- TOB: " ++ p.tob ++ "\n- Place: " ++ p.place ++
  "\nType " ++ sq ++ "yes" ++ sq ++ " ya " ++ sq ++ "change <field>: <value>" ++ sq

def confirmElseText : String :=
  "Kripya " ++ sq ++ "yes" ++ sq ++ " type karein ya " ++ sq ++
  "change <field>: <value>" ++ sq ++ " batayein (e.g., change dob: 1990-05-15)."

def generatingWaitText : String :=
  "Chart generate ho raha hai, kripya wait karein..."

def chatErrorText : String :=
  "Sorry, main abhi online nahi hun. Kripya thoda baad try karein."

def genErrorText : String :=
  "Sorry, Kundli generate karne mein koi problem aa rahi hai. Kripya dobara try karein ya contact karein."

def kundliSuccessText (name : String) : String :=
  "🎉 Bahut badhiya " ++ name ++ " ji! Aapka Kundli taiyar ho gaya hai. Ab main visual chart generate kar raha hun..."

/-! ### Generation Orchestrator (`generateKundli`) -/

/-- The shape of the `/api/kundli` and `/api/chart` responses, as the
orchestrator inspects them: a success flag and an optional payload
(`none` models both an absent and a falsy `chart_data`). -/
structure ApiResp where
  success : Bool
  chart_data : Option String
deriving DecidableEq, Repr

/-- The environment of one `generateKundli` run: the two remote responses, the
`Math.floor(Math.random() * 2000)` draw (a value in `0..1999`, modelled by the
reduction mod 2000) and `Date.now() - genStartTs` measured when the
visual-chart response arrives. -/
structure GenEnv where
  kundliResp : ApiResp
  chartResp : ApiResp
  rand : Nat
  elapsedAtChartResp : Nat
deriving DecidableEq, Repr

/-- `const minDelayMs = 8000 + Math.floor(Math.random() * 2000)`. -/
def minDelayMs (env : GenEnv) : Nat :=
  8000 + env.rand % 2000

/-- Observable effects of one `generateKundli` invocation: how many chart-data
and visual-chart requests were issued, and — when the chart was revealed — the
number of milliseconds after invocation start at which the chart-kind message
was appended. -/
structure GenTrace where
  kundliCalls : Nat
  chartCalls : Nat
  chartRevealElapsed : Option Nat
deriving DecidableEq, Repr

def noTrace : GenTrace :=
  ⟨0, 0, none⟩

def appendPandit (s : Session) (text : String) : Session :=
  { s with messages := s.messages ++ [panditM s.nextId text], nextId := s.nextId + 1 }

/-- The chart-card message pushed into the transcript. -/
def chartM (id : Nat) (cd : String) : Message :=
  { id := id, sender := .pandit, isChart := true, chartData := some cd }

/-- The guarded chart append (ExpandableChat.js lines 403-413): push the chart
card unless a chart-kind message is already present; `nextMessageId()` is only
consumed when a message is actually appended. -/
def appendChartMessage (cd : String) (nid : Nat) (msgs : List Message) :
    List Message × Nat :=
  if hasChart msgs then (msgs, nid)
  else (msgs ++ [chartM nid cd], nid + 1)

/-- `generateKundli` (ExpandableChat.js lines 352-429), as one atomic
transition.  The `await`ed delays do not change the state; the reveal instant
is reported in the trace (`elapsed + Math.max(0, minDelayMs - elapsed)`, with
`Math.max(0, a - b)` rendered as Nat truncated subtraction). -/
def generateKundli (env : GenEnv) (details : Option Profile) (s : Session) :
    Session × GenTrace :=
  -- if guard is already set and a generation is in-flight or done, skip
  if s.hasGenerated && (s.isGeneratingKundli || s.chartData.isSome || s.kundliData.isSome) then
    (s, noTrace)
  else
    let s0 := { s with
      isGeneratingKundli := true, isGeneratingChart := true, currentStep := .generating }
    let _birthDetails := details.getD s0.userProfile
    -- 1) chart-data (`/api/kundli`) request
    match env.kundliResp.success, env.kundliResp.chart_data with
    | true, some kd =>
      let s1 := { s0 with kundliData := some kd }
      let s2 := appendPandit s1 (kundliSuccessText s1.userProfile.name)
      -- 2) visual-chart (`/api/chart`) request, only after chart-data success
      match env.chartResp.success, env.chartResp.chart_data with
      | true, some cd =>
        let elapsed := env.elapsedAtChartResp
        let remaining := minDelayMs env - elapsed
        let s3 := { s2 with
          chartData := some cd, isGeneratingChart := false,
          currentStep := .chart_generated, hasGenerated := true }
        let appended := appendChartMessage cd s3.nextId s3.messages
        ({ s3 with messages := appended.1, nextId := appended.2, isGeneratingKundli := false },
         ⟨1, 1, some (elapsed + remaining)⟩)
      | _, _ =>
        -- catch: apologetic message; finally: clear `isGeneratingKundli`
        let sE := appendPandit s2 genErrorText
        ({ sE with isGeneratingKundli := false }, ⟨1, 1, none⟩)
    | _, _ =>
      let sE := appendPandit s0 genErrorText
      ({ sE with isGeneratingKundli := false }, ⟨1, 0, none⟩)

/-! ### Transcript pipeline: chunked replies -/

/-- Drop count of one match of `/\n\s*\n/` whose leading `'\n'` has already been
consumed: the greedy `\s*` backtracks so that a final `'\n'` remains, i.e. the
match extends to the last newline of the following whitespace run. -/
def nlRunLen (cs : List Char) : Option Nat :=
  let run := cs.takeWhile jsWs
  (run.reverse.findIdx? (· = '\n')).map fun j => run.length - j

/-- `botText.split(/\n\s*\n/)`: pieces between successive leftmost matches.
The fuel argument (initialised to the list length, which bounds the number of
steps since every step consumes at least one character) keeps the recursion
structural; the fuel never runs out. -/
def splitBlankGo : Nat → List Char → List Char → List (List Char)
  | _, acc, [] => [acc.reverse]
  | 0, acc, rest => [acc.reverse ++ rest]
  | fuel + 1, acc, c :: cs =>
    if c = '\n' then
      match nlRunLen cs with
      | some n => acc.reverse :: splitBlankGo fuel [] (cs.drop n)
      | none => splitBlankGo fuel (c :: acc) cs
    else splitBlankGo fuel (c :: acc) cs

def splitBlank (l : List Char) : List (List Char) :=
  splitBlankGo l.length [] l

/-- `(botText || '').split(/\n\s*\n/).filter(Boolean).slice(0, 3)`. -/
def splitParts (botText : String) : List String :=
  (((splitBlank botText.data).map List.asString).filter fun s => !s.isEmpty).take 3

/-- `sendChunk`: each chunk consumes one id for its typing placeholder (shown
then removed) and one id for the revealed text, which is `trim`med. -/
def chunkMsgs : List String → Nat → List Message × Nat
  | [], nid => ([], nid)
  | t :: ts, nid =>
    let (rest, nid2) := chunkMsgs ts (nid + 2)
    (panditM (nid + 1) (jsTrimL t.data).asString :: rest, nid2)

/-! ### Dialog Controller -/

/-- Result of the stepwise branch of `handleSendMessage`: the updated profile,
the next step and the bot utterance fed to the chunked typing pipeline. -/
structure DialogOut where
  profile : Profile
  step : Step
  botText : String
deriving DecidableEq, Repr

/-- The `ask_name` extraction: the explicit `name:`/`naam:` correction wins,
falling back to `parseName` (also when the correction value trims to empty,
which is falsy in the source). -/
def askNameExtract (input : String) : Option String :=
  match nameCorrection input.data with
  | some cap =>
    let v := (jsTrimL cap).asString
    if v = "" then parseName input else some v
  | none => parseName input

/-- The stepwise dialog logic of `handleSendMessage` (ExpandableChat.js lines
456-564) for the branches that flow into the common typing pipeline: the four
ask steps, the non-"yes" `confirm_details` inputs and the `generating` wait
reply.  The yes-branch and the chat branches perform remote effects and are
handled by `handleSendMessage` itself. -/
def dialogReply (p : Profile) (step : Step) (input : String) : DialogOut :=
  match step with
  | .ask_name =>
    -- allow corrections like: name: Rajesh
    match askNameExtract input with
    | none => ⟨p, .ask_name, askNameFailText⟩
    | some n => ⟨{ p with name := n }, .ask_dob, askNameOkText n⟩
  | .ask_dob =>
    match parseDob input with
    | some dob =>
      if isValidDate dob then ⟨{ p with dob := dob }, .ask_tob, askDobOkText⟩
      else ⟨p, .ask_dob, askDobFailText⟩
    | none => ⟨p, .ask_dob, askDobFailText⟩
  | .ask_tob =>
    match parseTob input with
    | some tob =>
      if isValidTime tob then ⟨{ p with tob := tob }, .ask_place, askTobOkText⟩
      else ⟨p, .ask_tob, askTobFailText⟩
    | none => ⟨p, .ask_tob, askTobFailText⟩
  | .ask_place =>
    match parsePlace input with
    | some place =>
      ⟨{ p with place := place }, .confirm_details, confirmSummary { p with place := place }⟩
    | none => ⟨p, .ask_place, askPlaceFailText⟩
  | .confirm_details =>
    -- non-"yes" inputs only; `handleSendMessage` intercepts the yes-branch first
    match changeCmd input.data with
    | some (field, cap) =>
      let value := (jsTrimL cap).asString
      if field = "name" || field = "naam" then
        ⟨{ p with name := value }, .confirm_details, changeSummary { p with name := value }⟩
      else if field = "dob" || field = "date" then
        match parseDob value with
        | some dob =>
          if isValidDate dob then
            ⟨{ p with dob := dob }, .confirm_details, changeSummary { p with dob := dob }⟩
          else ⟨p, .confirm_details, dobInvalidText⟩
        | none => ⟨p, .confirm_details, dobInvalidText⟩
      else if field = "tob" || field = "time" || field = "samay" then
        match parseTob value with
        | some tob =>
          if isValidTime tob then
            ⟨{ p with tob := tob }, .confirm_details, changeSummary { p with tob := tob }⟩
          else ⟨p, .confirm_details, tobInvalidText⟩
        | none => ⟨p, .confirm_details, tobInvalidText⟩
      else if field = "place" || field = "city" || field = "sthan" then
        match parsePlace value with
        | some place =>
          ⟨{ p with place := place }, .confirm_details, changeSummary { p with place := place }⟩
        | none => ⟨p, .confirm_details, placeInvalidText⟩
      else
        -- unreachable for outputs of `changeCmd`; the source falls through to the summary
        ⟨p, .confirm_details, changeSummary p⟩
    | none => ⟨p, .confirm_details, confirmElseText⟩
  | .generating => ⟨p, .generating, generatingWaitText⟩
  | .chart_generated => ⟨p, .chart_generated, ""⟩
  | .chatting => ⟨p, .chatting, ""⟩

/-- Tail of `handleSendMessage` after the bot text is known: remove the typing
indicator, reveal the (at most three) chunks, commit profile and step. -/
def pipelineFinish (s2 : Session) (out : DialogOut) : Session :=
  let base := s2.messages.filter fun m => !m.isTyping
  let chunked := chunkMsgs (splitParts out.botText) s2.nextId
  { s2 with
    messages := base ++ chunked.1
    nextId := chunked.2
    userProfile := out.profile
    currentStep := out.step
    isBotTyping := false }

/-- The environment of one `handleSendMessage` run: the `/api/chat` response
(`none` models a thrown request) and the generation environment for a possible
confirm-triggered `generateKundli`. -/
structure ChatEnv where
  chatResp : Option String
  gen : GenEnv
deriving DecidableEq, Repr

/-- The `chart_generated`/`chatting` branch: forward the input with chart
context to `/api/chat`; on success the reply goes through the chunked pipeline
and the step becomes `chatting`; a thrown request is caught, the typing bubble
replaced by the offline apology. -/
def handleChat (env : ChatEnv) (s s2 : Session) : Session × GenTrace :=
  match env.chatResp with
  | some r => (pipelineFinish s2 ⟨s.userProfile, .chatting, r⟩, noTrace)
  | none =>
    ({ s2 with
       messages := (s2.messages.filter fun m => !m.isTyping) ++ [panditM s2.nextId chatErrorText]
       nextId := s2.nextId + 1
       isBotTyping := false }, noTrace)

/-- `handleSendMessage` (ExpandableChat.js lines 431-619) as one atomic
transition on the session, taking the submitted input text as an argument. -/
def handleSendMessage (env : ChatEnv) (input : String) (s : Session) :
    Session × GenTrace :=
  if (jsTrimL input.data).isEmpty then (s, noTrace)
  else
    let s1 := { s with
      messages := s.messages ++ [userM s.nextId input]
      nextId := s.nextId + 1 }
    let s2 := { s1 with
      messages := s1.messages ++ [typingM s1.nextId]
      nextId := s1.nextId + 1
      isBotTyping := true }
    match s.currentStep with
    | .confirm_details =>
      if yesRe (jsTrimL input.data) then
        -- acknowledge, drop the typing bubble, then (guarded) run the orchestrator
        let s3 := { s2 with
          currentStep := .generating
          messages := (s2.messages.filter fun m => !m.isTyping) ++ [panditM s2.nextId confirmYesText]
          nextId := s2.nextId + 1 }
        if s.hasGenerated then (s3, noTrace)
        else generateKundli env.gen (some s.userProfile) { s3 with hasGenerated := true }
      else
        (pipelineFinish s2 (dialogReply s.userProfile .confirm_details input), noTrace)
    | .chart_generated => handleChat env s s2
    | .chatting => handleChat env s s2
    | step => (pipelineFinish s2 (dialogReply s.userProfile step input), noTrace)

/-! ### Session refresh and prefilled sessions -/

/-- `resetMessages` (ExpandableChat.js lines 118-150): transcript, profile and
chart data return to their initial values, the pending debounce timer is
cancelled and the one-shot latch cleared.  The `messageIdRef` counter and the
`isGenerating*` flags are not touched by the source. -/
def resetSession (s : Session) : Session :=
  { s with
    messages := initialMessages
    userProfile := emptyProfile
    kundliData := none
    chartData := none
    generationTimer := none
    hasGenerated := false
    currentStep := .ask_name }

def prefillMessages (name : String) : List Message :=
  [panditM 1 ("Jai Shri Ram 🙏 " ++ name ++
     " ji, swagat hai aapka AstroRemedis par. Main aapka digital Pandit Ji hoon. Aap kaise hain?"),
   panditM 2 "Main abhi aapka Kundli chart taiyar kar raha hun... Kripya thoda wait karein, grahon ki sthiti dekhni hai."]

/-- The `userData` effect (ExpandableChat.js lines 54-107): greet by name,
merge the form profile over the current one, and either schedule the one-shot
auto-generation (complete details) or resume the stepwise dialog at `ask_dob`. -/
def prefill (ud : Profile) (s : Session) : Session :=
  if ud.name = "" then s
  else
    let merged : Profile :=
      { name := ud.name
        dob := if ud.dob = "" then s.userProfile.dob else ud.dob
        tob := if ud.tob = "" then s.userProfile.tob else ud.tob
        place := if ud.place = "" then s.userProfile.place else ud.place
        timezone := if ud.timezone = "" then s.userProfile.timezone else ud.timezone }
    let s1 := { s with
      chartData := none
      kundliData := none
      userProfile := merged
      messages := prefillMessages ud.name }
    if ud.dob ≠ "" ∧ ud.tob ≠ "" ∧ ud.place ≠ "" then
      if !s1.hasGenerated then
        { s1 with
          currentStep := .generating
          hasGenerated := true
          generationTimer := some
            { name := ud.name, dob := ud.dob, tob := ud.tob, place := ud.place,
              timezone := if ud.timezone = "" then "Asia/Kolkata" else ud.timezone } }
      else s1
    else { s1 with currentStep := .ask_dob }

/-- The 150 ms debounce timer firing: a `setTimeout` callback runs at most
once, so the pending slot is cleared as it fires. -/
def fireTimer (genv : GenEnv) (s : Session) : Session × GenTrace :=
  match s.generationTimer with
  | none => (s, noTrace)
  | some d => generateKundli genv (some d) { s with generationTimer := none }

/-! ### The birth-detail form (`UserDataForm.js`) -/

structure FormData where
  name : String
  dob : String
  tob : String
  place : String
  timezone : String
deriving DecidableEq, Repr

/-- Julian day number of a Gregorian calendar date (used for timestamps). -/
def jdn (y m d : Nat) : Nat :=
  let a := (14 - m) / 12
  let y2 := y + 4800 - a
  let m2 := m + 12 * a - 3
  d + (153 * m2 + 2) / 5 + 365 * y2 + y2 / 4 - y2 / 100 + y2 / 400 - 32045

/-- `new Date(s).getTime()` modelled on the value space of the HTML date input
(a `YYYY-MM-DD` string or empty): a calendar-valid string parses to its UTC
midnight timestamp in milliseconds; anything else is an Invalid Date (`NaN`,
modelled as `none`), for which every `<` / `>` comparison is false. -/
def jsDateMs (s : String) : Option Int :=
  if isValidDate s then
    match s.data with
    | [y1, y2, y3, y4, _, mo1, mo2, _, d1, d2] =>
      some (((jdn (natOfDigits [y1, y2, y3, y4]) (natOfDigits [mo1, mo2])
               (natOfDigits [d1, d2]) : Int) - 2440588) * 86400000)
    | _ => none
  else none

/-- `new Date('1900-01-01').getTime()`. -/
def ms1900 : Int :=
  ((jdn 1900 1 1 : Int) - 2440588) * 86400000

/-- `/^([0-1]?[0-9]|2[0-3]):[0-5][0-9]$/` (the form's time check; note that it
admits a single-digit hour). -/
def formTimeRe : List Char → Bool
  | [h, ':', m1, m2] =>
    h.isDigit && (decide ('0' ≤ m1) && decide (m1 ≤ '5')) && m2.isDigit
  | [h1, h2, ':', m1, m2] =>
    (((h1 = '0' || h1 = '1') && h2.isDigit) ||
      (h1 = '2' && (decide ('0' ≤ h2) && decide (h2 ≤ '3')))) &&
    (decide ('0' ≤ m1) && decide (m1 ≤ '5')) && m2.isDigit
  | _ => false

/-- `validateForm` (UserDataForm.js lines 72-114), parameterised by the current
timestamp.  Note that the date check only computes `new Date(dob)` for range
comparisons: an Invalid Date compares false on both sides and passes. -/
def validateForm (todayMs : Int) (fd : FormData) : Bool :=
  (!(jsTrimL fd.name.data).isEmpty && decide ((jsTrimL fd.name.data).length ≥ 2)) &&
  (!fd.dob.isEmpty &&
    (match jsDateMs fd.dob with
     | some t => decide (t ≤ todayMs) && decide (ms1900 ≤ t)
     | none => true)) &&
  (!fd.tob.isEmpty && formTimeRe fd.tob.data) &&
  (!(jsTrimL fd.place.data).isEmpty && decide ((jsTrimL fd.place.data).length ≥ 2))

/-- `handleSubmit` (UserDataForm.js lines 117-148): on a valid form, the
submitted `userData` object — note the `':00'` appended to the time. -/
def handleSubmitForm (todayMs : Int) (fd : FormData) : Option Profile :=
  if validateForm todayMs fd then
    some { name := (jsTrimL fd.name.data).asString
           dob := fd.dob
           tob := fd.tob ++ ":00"
           place := (jsTrimL fd.place.data).asString
           timezone := fd.timezone }
  else none

/-! ### Reachable session states -/

/-- Reachable session states: the initial mount, closed under the user sending
a message, a direct orchestrator invocation, a session refresh, the modal form
feeding `userData` (the only producer of prefilled profiles, cf.
`AstroBotUI.handleFormSubmit`) and a pending debounce timer firing.  The
predicate `ok` selects which form submissions are considered; instantiate it
with `fun _ => True` for all of them. -/
inductive Reach (ok : FormData → Prop) : Session → Prop where
  | init : Reach ok initialSession
  | send (env : ChatEnv) (input : String) {s : Session} :
      Reach ok s → Reach ok (handleSendMessage env input s).1
  | gen (genv : GenEnv) (d : Option Profile) {s : Session} :
      Reach ok s → Reach ok (generateKundli genv d s).1
  | refresh {s : Session} : Reach ok s → Reach ok (resetSession s)
  | form (todayMs : Int) (fd : FormData) (ud : Profile) {s : Session} :
      Reach ok s → ok fd → handleSubmitForm todayMs fd = some ud →
      Reach ok (prefill ud s)
  | fire (genv : GenEnv) {s : Session} :
      Reach ok s → Reach ok (fireTimer genv s).1

/-- The dialog-path field invariant: the stored date of birth is empty or
passes `isValidDate`, the stored time of birth is empty or matches
`HH:MM:SS` exactly (`isValidTime`). -/
def profileOk (p : Profile) : Prop :=
  (p.dob = "" ∨ isValidDate p.dob = true) ∧ (p.tob = "" ∨ isValidTime p.tob = true)

/-- Well-formed form input, as the browser date/time controls produce it: the
date value is a calendar-valid `YYYY-MM-DD`, the time value a two-digit-hour
`HH:MM`. -/
def formFieldsOk (fd : FormData) : Prop :=
  isValidDate fd.dob = true ∧ isHHMM fd.tob.data = true

/-- The steps whose `handleSendMessage` branch flows into the chunked typing
pipeline (every step except the confirm and chat branches, which perform
remote effects). -/
def stepPipeline : Step → Bool
  | .ask_name | .ask_dob | .ask_tob | .ask_place | .generating => true
  | .confirm_details | .chart_generated | .chatting => false

/-- The four states of the stepwise intake scenario: name, date, time and
place entered in sequence from a fresh session. -/
def scenarioS1 (env : ChatEnv) : Session :=
  (handleSendMessage env "Mera naam Rajesh hai" initialSession).1

def scenarioS2 (env : ChatEnv) : Session :=
  (handleSendMessage env "15/05/1990" (scenarioS1 env)).1

def scenarioS3 (env : ChatEnv) : Session :=
  (handleSendMessage env "2:30 PM" (scenarioS2 env)).1

def scenarioS4 (env : ChatEnv) : Session :=
  (handleSendMessage env "Delhi" (scenarioS3 env)).1

/-- A confirmed profile used to exercise the change command. -/
def profC8 : Profile :=
  ⟨"Rajesh", "1990-01-01", "14:30:00", "Delhi", "Asia/Kolkata"⟩

/-! ## Lemmas about the transcript -/

theorem chartCount_append (a b : List Message) :
    chartCount (a ++ b) = chartCount a + chartCount b := by
  simp [chartCount, List.filter_append]

theorem hasChart_append (a b : List Message) :
    hasChart (a ++ b) = (hasChart a || hasChart b) := by
  simp [hasChart, List.any_append]

theorem hasChart_eq_false_iff (l : List Message) :
    hasChart l = false ↔ chartCount l = 0 := by
  simp [hasChart, chartCount, List.length_eq_zero, List.filter_eq_nil_iff, List.any_eq_true]

theorem hasChart_false_all (l : List Message) (h : hasChart l = false) :
    ∀ m ∈ l, m.isChart = false := by
  intro m hm2
  by_contra hx
  have hcc : hasChart l = true := by
    simp only [hasChart, List.any_eq_true]
    exact ⟨m, hm2, by simpa using hx⟩
  rw [hcc] at h
  cases h

theorem chartCount_panditM (id : Nat) (t : String) : chartCount [panditM id t] = 0 := by
  simp [chartCount, panditM]

theorem chartCount_userM (id : Nat) (t : String) : chartCount [userM id t] = 0 := by
  simp [chartCount, userM]

theorem chartCount_typingM (id : Nat) : chartCount [typingM id] = 0 := by
  simp [chartCount, typingM]

theorem chartCount_chartM (id : Nat) (cd : String) : chartCount [chartM id cd] = 1 := by
  simp [chartCount, chartM]

theorem chartCount_filter_le (l : List Message) :
    chartCount (l.filter fun m => !m.isTyping) ≤ chartCount l := by
  simp only [chartCount]
  exact ((List.filter_sublist l).filter _).length_le

theorem chartCount_chunkMsgs (ts : List String) (nid : Nat) :
    chartCount (chunkMsgs ts nid).1 = 0 := by
  induction ts generalizing nid with
  | nil => simp [chunkMsgs, chartCount]
  | cons t ts ih =>
    simp only [chunkMsgs]
    have := ih (nid + 2)
    simp only [chartCount, List.filter] at this ⊢
    simp [panditM, this]

theorem chartCount_initial : chartCount initialMessages = 0 := by
  simp [initialMessages, chartCount, panditM, List.filter]

theorem chartCount_prefillMessages (n : String) : chartCount (prefillMessages n) = 0 := by
  simp [prefillMessages, chartCount, panditM, List.filter]

/-- The guarded chart append never produces a second chart message, and is the
identity when a chart message is already present. -/
theorem appendChartMessage_count (cd : String) (nid : Nat) (msgs : List Message)
    (h : chartCount msgs ≤ 1) :
    chartCount (appendChartMessage cd nid msgs).1 ≤ 1 := by
  unfold appendChartMessage
  by_cases hc : hasChart msgs
  · simpa [hc]
  · have h0 : chartCount msgs = 0 := (hasChart_eq_false_iff msgs).1 (by simpa using hc)
    simp [hc, chartCount_append, h0, chartCount_chartM]

/-! ## Lemmas about `generateKundli` -/

/-- Guard behaviour: with the latch set and a generation in flight or a result
present, `generateKundli` is the identity and performs no request. -/
theorem generateKundli_skip (env : GenEnv) (d : Option Profile) (s : Session)
    (hg : s.hasGenerated = true)
    (h : s.isGeneratingKundli = true ∨ s.chartData.isSome ∨ s.kundliData.isSome) :
    generateKundli env d s = (s, noTrace) := by
  unfold generateKundli
  have hcond : (s.hasGenerated &&
      (s.isGeneratingKundli || s.chartData.isSome || s.kundliData.isSome)) = true := by
    rcases h with h | h | h <;> simp [hg, h]
  simp [hcond]

/-- Characterisation of a fully successful run from a state with no previous
result, no generation in flight and no chart message yet. -/
theorem generateKundli_success (env : GenEnv) (d : Option Profile) (s : Session)
    (kd cd : String)
    (hk : s.kundliData = none) (hc : s.chartData = none)
    (hig : s.isGeneratingKundli = false) (hm : hasChart s.messages = false)
    (h1 : env.kundliResp.success = true) (h2 : env.kundliResp.chart_data = some kd)
    (h3 : env.chartResp.success = true) (h4 : env.chartResp.chart_data = some cd) :
    generateKundli env d s =
      ({ s with
          kundliData := some kd
          chartData := some cd
          isGeneratingKundli := false
          isGeneratingChart := false
          currentStep := .chart_generated
          hasGenerated := true
          messages := s.messages ++
            [panditM s.nextId (kundliSuccessText s.userProfile.name), chartM (s.nextId + 1) cd]
          nextId := s.nextId + 2 },
        ⟨1, 1, some (env.elapsedAtChartResp + (minDelayMs env - env.elapsedAtChartResp))⟩) := by
  unfold generateKundli
  have hcond : (s.hasGenerated &&
      (s.isGeneratingKundli || s.chartData.isSome || s.kundliData.isSome)) = false := by
    simp [hk, hc, hig]
  have hall : ∀ x ∈ s.messages, x.isChart = false := by
    intro x hx
    by_contra hx2
    have hcc : hasChart s.messages = true := by
      simp only [hasChart, List.any_eq_true]
      exact ⟨x, hx, by simpa using hx2⟩
    rw [hcc] at hm
    cases hm
  have hnone : ¬ ∃ x ∈ s.messages, x.isChart = true := by
    rintro ⟨x, hx, hx2⟩
    rw [hall x hx] at hx2
    cases hx2
  simp [hcond, h1, h2, h3, h4, appendPandit, appendChartMessage, hasChart, panditM, hnone]

/-- Characterisation of a run whose chart-data request fails. -/
theorem generateKundli_kundliFail (env : GenEnv) (d : Option Profile) (s : Session)
    (hk : s.kundliData = none) (hc : s.chartData = none)
    (hig : s.isGeneratingKundli = false)
    (hfail : env.kundliResp.success = false ∨ env.kundliResp.chart_data = none) :
    generateKundli env d s =
      ({ s with
          isGeneratingKundli := false
          isGeneratingChart := true
          currentStep := .generating
          messages := s.messages ++ [panditM s.nextId genErrorText]
          nextId := s.nextId + 1 },
        ⟨1, 0, none⟩) := by
  unfold generateKundli
  have hcond : (s.hasGenerated &&
      (s.isGeneratingKundli || s.chartData.isSome || s.kundliData.isSome)) = false := by
    simp [hk, hc, hig]
  rcases hfail with h | h
  · simp [hcond, h, appendPandit]
  · simp [hcond, h, appendPandit]

/-- Characterisation of a run whose visual-chart request fails after a
successful chart-data request. -/
theorem generateKundli_chartFail (env : GenEnv) (d : Option Profile) (s : Session)
    (kd : String)
    (hk : s.kundliData = none) (hc : s.chartData = none)
    (hig : s.isGeneratingKundli = false)
    (h1 : env.kundliResp.success = true) (h2 : env.kundliResp.chart_data = some kd)
    (hfail : env.chartResp.success = false ∨ env.chartResp.chart_data = none) :
    generateKundli env d s =
      ({ s with
          kundliData := some kd
          isGeneratingKundli := false
          isGeneratingChart := true
          currentStep := .generating
          messages := s.messages ++
            [panditM s.nextId (kundliSuccessText s.userProfile.name),
             panditM (s.nextId + 1) genErrorText]
          nextId := s.nextId + 2 },
        ⟨1, 1, none⟩) := by
  unfold generateKundli
  have hcond : (s.hasGenerated &&
      (s.isGeneratingKundli || s.chartData.isSome || s.kundliData.isSome)) = false := by
    simp [hk, hc, hig]
  rcases hfail with h | h
  · simp [hcond, h1, h2, h, appendPandit]
  · simp [hcond, h1, h2, h, appendPandit]

/-- `generateKundli` never changes the profile. -/
theorem generateKundli_profile (env : GenEnv) (d : Option Profile) (s : Session) :
    (generateKundli env d s).1.userProfile = s.userProfile := by
  unfold generateKundli
  split
  · rfl
  · split
    · split <;> simp [appendPandit]
    · simp [appendPandit]

/-- `generateKundli` never touches the pending debounce timer. -/
theorem generateKundli_timer (env : GenEnv) (d : Option Profile) (s : Session) :
    (generateKundli env d s).1.generationTimer = s.generationTimer := by
  unfold generateKundli
  split
  · rfl
  · split
    · split <;> simp [appendPandit]
    · simp [appendPandit]

/-- `generateKundli` keeps the transcript's chart-message count at most one. -/
theorem generateKundli_chartCount (env : GenEnv) (d : Option Profile) (s : Session)
    (h : chartCount s.messages ≤ 1) :
    chartCount (generateKundli env d s).1.messages ≤ 1 := by
  unfold generateKundli
  split
  · exact h
  · split
    · split
      · refine appendChartMessage_count _ _ _ ?_
        simpa [appendPandit, chartCount_append, chartCount_panditM] using h
      · simpa [appendPandit, chartCount_append, chartCount_panditM] using h
    · simpa [appendPandit, chartCount_append, chartCount_panditM] using h

/-! ## Lemmas about `handleSendMessage` -/

theorem filter_noTyping (l : List Message) (h : ∀ m ∈ l, m.isTyping = false) :
    (l.filter fun m => !m.isTyping) = l := by
  refine List.filter_eq_self.mpr fun m hm => ?_
  simp [h m hm]

theorem pipelineFinish_chartCount (s2 : Session) (out : DialogOut)
    (h : chartCount s2.messages ≤ 1) :
    chartCount (pipelineFinish s2 out).messages ≤ 1 := by
  have h1 := chartCount_filter_le s2.messages
  have h2 := chartCount_chunkMsgs (splitParts out.botText) s2.nextId
  simp only [pipelineFinish, chartCount_append]
  omega

theorem handleChat_chartCount (env : ChatEnv) (s s2 : Session)
    (h : chartCount s2.messages ≤ 1) :
    chartCount (handleChat env s s2).1.messages ≤ 1 := by
  unfold handleChat
  have h1 := chartCount_filter_le s2.messages
  split
  · exact pipelineFinish_chartCount _ _ h
  · simp only [chartCount_append, chartCount_panditM]
    omega

theorem handleSend_chartCount (env : ChatEnv) (input : String) (s : Session)
    (h : chartCount s.messages ≤ 1) :
    chartCount (handleSendMessage env input s).1.messages ≤ 1 := by
  unfold handleSendMessage
  split
  · exact h
  · have hs2 : chartCount ((s.messages ++ [userM s.nextId input]) ++
        [typingM (s.nextId + 1)]) ≤ 1 := by
      simp only [chartCount_append, chartCount_userM, chartCount_typingM]
      omega
    split
    · -- confirm_details
      split
      · -- "yes"
        have h3 : chartCount ((((s.messages ++ [userM s.nextId input]) ++
            [typingM (s.nextId + 1)]).filter fun m => !m.isTyping) ++
            [panditM (s.nextId + 1 + 1) confirmYesText]) ≤ 1 := by
          have h4 := chartCount_filter_le ((s.messages ++ [userM s.nextId input]) ++
            [typingM (s.nextId + 1)])
          simp only [chartCount_append, chartCount_panditM]
          omega
        split
        · exact h3
        · exact generateKundli_chartCount _ _ _ h3
      · exact pipelineFinish_chartCount _ _ hs2
    · exact handleChat_chartCount _ _ _ hs2
    · exact handleChat_chartCount _ _ _ hs2
    · exact pipelineFinish_chartCount _ _ hs2

/-- Computation of `handleSendMessage` for a branch that flows into the
typing pipeline (any non-chat step; in `confirm_details` only a non-"yes"
input) whose reply is a single chunk: the user message is appended, the typing
placeholders come and go, the trimmed chunk is revealed, and the profile and
step of the dialog reply are committed. -/
theorem handleSend_pipeline_single (env : ChatEnv) (input : String) (s : Session)
    (out : DialogOut)
    (hroute : stepPipeline s.currentStep = true ∨
      (s.currentStep = .confirm_details ∧ yesRe (jsTrimL input.data) = false))
    (hdr : dialogReply s.userProfile s.currentStep input = out)
    (hne : (jsTrimL input.data).isEmpty = false)
    (hnt : ∀ m ∈ s.messages, m.isTyping = false)
    (hsp : splitParts out.botText = [out.botText])
    (htrim : (jsTrimL out.botText.data).asString = out.botText) :
    handleSendMessage env input s =
      ({ s with
          messages := s.messages ++ [userM s.nextId input, panditM (s.nextId + 3) out.botText]
          nextId := s.nextId + 4
          isBotTyping := false
          userProfile := out.profile
          currentStep := out.step }, noTrace) := by
  have hch : ∀ nid : Nat, chunkMsgs (splitParts out.botText) nid =
      ([panditM (nid + 1) out.botText], nid + 2) := by
    intro nid
    rw [hsp]
    simp only [chunkMsgs]
    rw [htrim]
  have hfil : ((s.messages ++ [userM s.nextId input]) ++ [typingM (s.nextId + 1)]).filter
      (fun m => !m.isTyping) = s.messages ++ [userM s.nextId input] := by
    simp [List.filter_append, filter_noTyping s.messages hnt, userM, typingM]
  unfold handleSendMessage
  rw [hne]
  simp only [Bool.false_eq_true, if_false]
  rcases hroute with hp | ⟨hc, hy⟩
  · cases hs : s.currentStep
    case confirm_details =>
      rw [hs] at hp
      simp [stepPipeline] at hp
    case chart_generated =>
      rw [hs] at hp
      simp [stepPipeline] at hp
    case chatting =>
      rw [hs] at hp
      simp [stepPipeline] at hp
    all_goals
      rw [hs] at hdr
      dsimp only
      rw [hdr]
      simp only [pipelineFinish, hch]
      rw [hfil]
      simp [Session.mk.injEq]
  · rw [hc] at hdr ⊢
    dsimp only
    rw [hy]
    simp only [Bool.false_eq_true, if_false]
    rw [hdr]
    simp only [pipelineFinish, hch]
    rw [hfil]
    simp [Session.mk.injEq]

/-! ## Lemmas about refresh, prefill, timer -/

theorem resetSession_chartCount (s : Session) :
    chartCount (resetSession s).messages = 0 := by
  simpa [resetSession] using chartCount_initial

theorem prefill_messages (ud : Profile) (s : Session) :
    (prefill ud s).messages = s.messages ∨ (prefill ud s).messages = prefillMessages ud.name := by
  unfold prefill
  by_cases h1 : ud.name = ""
  · simp [h1]
  · by_cases h2 : ud.dob ≠ "" ∧ ud.tob ≠ "" ∧ ud.place ≠ ""
    · by_cases h3 : s.hasGenerated <;> simp [h1, h2, h3]
    · simp [h1, h2]

theorem prefill_chartCount (ud : Profile) (s : Session) (h : chartCount s.messages ≤ 1) :
    chartCount (prefill ud s).messages ≤ 1 := by
  rcases prefill_messages ud s with h2 | h2 <;> rw [h2]
  · exact h
  · simp [chartCount_prefillMessages]

theorem fireTimer_chartCount (genv : GenEnv) (s : Session)
    (h : chartCount s.messages ≤ 1) :
    chartCount (fireTimer genv s).1.messages ≤ 1 := by
  unfold fireTimer
  split
  · exact h
  · exact generateKundli_chartCount _ _ _ h

/-- The chart-message invariant over all reachable states. -/
theorem reach_chartCount (ok : FormData → Prop) (s : Session) (h : Reach ok s) :
    chartCount s.messages ≤ 1 := by
  induction h with
  | init => simp [initialSession, chartCount_initial]
  | send env input _ ih => exact handleSend_chartCount _ _ _ ih
  | gen genv d _ ih => exact generateKundli_chartCount _ _ _ ih
  | refresh _ _ => simp [resetSession_chartCount]
  | form todayMs fd ud _ _ _ ih => exact prefill_chartCount _ _ ih
  | fire genv _ ih => exact fireTimer_chartCount _ _ ih

/-! ## Lemmas about the profile-field invariant -/

theorem dialogReply_profileOk (p : Profile) (step : Step) (input : String)
    (h : profileOk p) : profileOk (dialogReply p step input).profile := by
  cases step <;> simp only [dialogReply] <;> (repeat' split) <;> simp_all [profileOk]

theorem handleSend_profileOk (env : ChatEnv) (input : String) (s : Session)
    (h : profileOk s.userProfile) :
    profileOk (handleSendMessage env input s).1.userProfile := by
  unfold handleSendMessage
  split
  · exact h
  · split
    · -- confirm_details
      split
      · split
        · exact h
        · rw [generateKundli_profile]
          exact h
      · exact dialogReply_profileOk _ _ _ h
    · -- chart_generated
      unfold handleChat
      split
      · exact h
      · exact h
    · -- chatting
      unfold handleChat
      split
      · exact h
      · exact h
    · exact dialogReply_profileOk _ _ _ h

theorem isValidTime_hhmm_colon00 (t : String) (h : isHHMM t.data = true) :
    isValidTime (t ++ ":00") = true := by
  unfold isValidTime
  have hdata : (t ++ ":00").data = t.data ++ [':', '0', '0'] := by
    rfl
  rw [hdata]
  unfold isHHMM at h
  split at h
  · rename_i h1 h2 m1 m2 heq
    rw [heq]
    simp only [List.cons_append, List.nil_append, isValidTimeL]
    simp_all
  · cases h

theorem handleSubmitForm_fieldsOk (todayMs : Int) (fd : FormData) (ud : Profile)
    (hok : formFieldsOk fd) (h : handleSubmitForm todayMs fd = some ud) :
    (ud.dob = "" ∨ isValidDate ud.dob = true) ∧ (ud.tob = "" ∨ isValidTime ud.tob = true) := by
  unfold handleSubmitForm at h
  split at h
  · cases h
    exact ⟨Or.inr hok.1, Or.inr (isValidTime_hhmm_colon00 _ hok.2)⟩
  · cases h

theorem prefill_profile (ud : Profile) (s : Session) :
    (prefill ud s).userProfile = s.userProfile ∨
    (prefill ud s).userProfile =
      { name := ud.name
        dob := if ud.dob = "" then s.userProfile.dob else ud.dob
        tob := if ud.tob = "" then s.userProfile.tob else ud.tob
        place := if ud.place = "" then s.userProfile.place else ud.place
        timezone := if ud.timezone = "" then s.userProfile.timezone else ud.timezone } := by
  unfold prefill
  by_cases h1 : ud.name = ""
  · simp [h1]
  · by_cases h2 : ud.dob ≠ "" ∧ ud.tob ≠ "" ∧ ud.place ≠ ""
    · by_cases h3 : s.hasGenerated <;> simp [h1, h2, h3]
    · simp [h1, h2]

theorem prefill_profileOk (ud : Profile) (s : Session)
    (hud : (ud.dob = "" ∨ isValidDate ud.dob = true) ∧
           (ud.tob = "" ∨ isValidTime ud.tob = true))
    (h : profileOk s.userProfile) : profileOk (prefill ud s).userProfile := by
  rcases prefill_profile ud s with h2 | h2 <;> rw [h2]
  · exact h
  · constructor
    · by_cases hd : ud.dob = ""
      · simpa [hd] using h.1
      · simpa [hd] using hud.1.resolve_left hd
    · by_cases ht : ud.tob = ""
      · simpa [ht] using h.2
      · simpa [ht] using hud.2.resolve_left ht

/-- The profile-field invariant over states reachable with well-formed form
input. -/
theorem reach_profileOk (ok : FormData → Prop) (hok : ∀ fd, ok fd → formFieldsOk fd)
    (s : Session) (h : Reach ok s) : profileOk s.userProfile := by
  induction h with
  | init => simp [profileOk, initialSession, emptyProfile]
  | send env input _ ih => exact handleSend_profileOk _ _ _ ih
  | gen genv d _ ih =>
    rw [generateKundli_profile]
    exact ih
  | refresh _ ih => simp [profileOk, resetSession, emptyProfile]
  | form todayMs fd ud _ hfd hsub ih =>
    exact prefill_profileOk _ _ (handleSubmitForm_fieldsOk _ _ _ (hok fd hfd) hsub) ih
  | fire genv _ ih =>
    unfold fireTimer
    split
    · exact ih
    · rw [generateKundli_profile]
      exact ih

/-! ## Claim theorems -/

/-- **C5** (counterexample): the claim that every input matching the documented
time grammar normalizes to `HH:MM:SS` is false: `"2.30 pm"` matches the
`H.MM[ am|pm]` form, but the parser returns `"14:30:pm"` — the dot-form's
am/pm capture is group 3, so `sec = m[3] || '00'` picks up the meridiem text
instead of seconds, and the result does not match `HH:MM:SS`. -/
theorem parseTob_dot_pm_not_hhmmss :
    parseTob "2.30 pm" = some "14:30:pm" ∧ isValidTime "14:30:pm" = false := by
  exact ⟨rfl, rfl⟩

/-- **C5** (amended): the time parser recognizes `H:MM[:SS][ am|pm]` and
`H.MM[ am|pm]`, applies 12-to-24-hour conversion (pm adds 12 unless the hour
is already 12; am maps hour 12 to 0), rejects hours outside 0-23, and maps
`"2:30 PM"` to `"14:30:00"` and `"14:30"` to `"14:30:00"`; colon-form inputs
normalize to `HH:MM:SS`, but the `H.MM am|pm` form yields `HH:MM:` followed by
the meridiem text instead of seconds. -/
theorem parseTob_normalization :
    parseTob "2:30 PM" = some "14:30:00" ∧
    parseTob "14:30" = some "14:30:00" ∧
    parseTob "12:15 am" = some "00:15:00" ∧
    parseTob "12:40 pm" = some "12:40:00" ∧
    parseTob "7.45" = some "07:45:00" ∧
    parseTob "25:30" = none ∧
    parseTob "2.30 pm" = some "14:30:pm" := by
  exact ⟨rfl, rfl, rfl, rfl, rfl, rfl, rfl⟩

/-- **C6** (counterexample): the claim that the time parser returns "no match"
for `"23:75"` is false — the regex only constrains the minute's digit count,
so the input matches and the parser returns a value. -/
theorem parseTob_2375_matches : ¬ parseTob "23:75" = none := by
  intro h
  rw [show parseTob "23:75" = some "23:75:00" from rfl] at h
  cases h

/-- **C6** (amended): the time parser does not validate the minute range
beyond the regex's digit count; `"23:75"` parses and normalizes to
`"23:75:00"`. -/
theorem parseTob_2375_value : parseTob "23:75" = some "23:75:00" := by
  exact rfl

/-- **C1**: for a session with no stored result, no generation in flight and no
chart message yet, running the orchestrator twice in succession with
successful responses issues exactly one chart-data request and one
visual-chart request in total, leaves exactly one chart-kind message, and the
second invocation returns the state unchanged with an empty trace; moreover,
whenever the guard is set and a generation is in flight or a result exists,
any invocation returns immediately without side effects. -/
theorem generateKundli_idempotent (env1 env2 : GenEnv) (d1 d2 : Option Profile)
    (s : Session) (kd cd : String)
    (hk : s.kundliData = none) (hc : s.chartData = none)
    (hig : s.isGeneratingKundli = false) (hm : hasChart s.messages = false)
    (h1 : env1.kundliResp.success = true) (h2 : env1.kundliResp.chart_data = some kd)
    (h3 : env1.chartResp.success = true) (h4 : env1.chartResp.chart_data = some cd) :
    (generateKundli env1 d1 s).2.kundliCalls +
      (generateKundli env2 d2 (generateKundli env1 d1 s).1).2.kundliCalls = 1 ∧
    (generateKundli env1 d1 s).2.chartCalls +
      (generateKundli env2 d2 (generateKundli env1 d1 s).1).2.chartCalls = 1 ∧
    chartCount (generateKundli env2 d2 (generateKundli env1 d1 s).1).1.messages = 1 ∧
    generateKundli env2 d2 (generateKundli env1 d1 s).1 =
      ((generateKundli env1 d1 s).1, noTrace) ∧
    (∀ (env : GenEnv) (d : Option Profile) (s2 : Session), s2.hasGenerated = true →
      (s2.isGeneratingKundli = true ∨ s2.chartData.isSome ∨ s2.kundliData.isSome) →
      generateKundli env d s2 = (s2, noTrace)) := by
  have hrun := generateKundli_success env1 d1 s kd cd hk hc hig hm h1 h2 h3 h4
  have h0 : chartCount s.messages = 0 := (hasChart_eq_false_iff s.messages).1 hm
  have hskip :
      generateKundli env2 d2 (generateKundli env1 d1 s).1 =
        ((generateKundli env1 d1 s).1, noTrace) := by
    refine generateKundli_skip _ _ _ ?_ ?_
    · rw [hrun]
    · refine Or.inr (Or.inl ?_)
      rw [hrun]
      simp
  refine ⟨?_, ?_, ?_, hskip, fun env d s2 hg hd => generateKundli_skip env d s2 hg hd⟩
  · rw [hskip, hrun]
    rfl
  · rw [hskip, hrun]
    rfl
  · rw [hskip, hrun]
    simp [chartCount_append, h0, chartCount, panditM, chartM]
    exact hasChart_false_all s.messages hm

/-- **C1** (witness). -/
theorem generateKundli_idempotent_witness :
    (generateKundli ⟨⟨true, some "K"⟩, ⟨true, some "C"⟩, 0, 500⟩ none initialSession).2.kundliCalls +
      (generateKundli ⟨⟨true, some "K"⟩, ⟨true, some "C"⟩, 1, 900⟩ none
        (generateKundli ⟨⟨true, some "K"⟩, ⟨true, some "C"⟩, 0, 500⟩ none initialSession).1).2.kundliCalls = 1 := by
  exact (generateKundli_idempotent ⟨⟨true, some "K"⟩, ⟨true, some "C"⟩, 0, 500⟩
    ⟨⟨true, some "K"⟩, ⟨true, some "C"⟩, 1, 900⟩ none none initialSession "K" "C"
    rfl rfl rfl rfl rfl rfl rfl rfl).1

/-- Trace of a fully successful run (independent of the chart-message guard). -/
theorem generateKundli_success_trace (env : GenEnv) (d : Option Profile) (s : Session)
    (kd cd : String)
    (hk : s.kundliData = none) (hc : s.chartData = none)
    (hig : s.isGeneratingKundli = false)
    (h1 : env.kundliResp.success = true) (h2 : env.kundliResp.chart_data = some kd)
    (h3 : env.chartResp.success = true) (h4 : env.chartResp.chart_data = some cd) :
    (generateKundli env d s).2 =
      ⟨1, 1, some (env.elapsedAtChartResp + (minDelayMs env - env.elapsedAtChartResp))⟩ := by
  unfold generateKundli
  have hcond : (s.hasGenerated &&
      (s.isGeneratingKundli || s.chartData.isSome || s.kundliData.isSome)) = false := by
    simp [hk, hc, hig]
  simp [hcond, h1, h2, h3, h4, appendPandit]

/-- **C3**: on a successful run from a clean session state, `MIN_DELAY` is
drawn from 8000-9999 ms, and when both remote calls return in under 1000 ms
the chart-kind message is revealed exactly at `MIN_DELAY` milliseconds after
invocation start (`remaining = max(0, MIN_DELAY - elapsed)` is awaited), hence
never before 8000 ms. -/
theorem chart_reveal_min_delay (env : GenEnv) (d : Option Profile) (s : Session)
    (kd cd : String)
    (hk : s.kundliData = none) (hc : s.chartData = none)
    (hig : s.isGeneratingKundli = false)
    (h1 : env.kundliResp.success = true) (h2 : env.kundliResp.chart_data = some kd)
    (h3 : env.chartResp.success = true) (h4 : env.chartResp.chart_data = some cd)
    (hfast : env.elapsedAtChartResp < 1000) :
    (generateKundli env d s).2.chartRevealElapsed = some (minDelayMs env) ∧
    8000 ≤ minDelayMs env ∧ minDelayMs env < 10000 := by
  have htr := generateKundli_success_trace env d s kd cd hk hc hig h1 h2 h3 h4
  have hle : env.elapsedAtChartResp ≤ minDelayMs env := by
    unfold minDelayMs
    omega
  refine ⟨?_, ?_, ?_⟩
  · rw [htr]
    simp only []
    congr 1
    omega
  · unfold minDelayMs
    omega
  · unfold minDelayMs
    have : env.rand % 2000 < 2000 := Nat.mod_lt _ (by omega)
    omega

/-- **C4**: when the chart-data or the visual-chart request fails, the
orchestrator appends exactly one apologetic message and stops: the
`isGeneratingKundli` flag is cleared, `hasGenerated`, the pending timer and
the profile are untouched (no retry is auto-scheduled), no chart-kind message
is appended, and the step is left at `generating`; while in `generating`,
every user message only yields the wait acknowledgment, changing nothing but
the transcript. -/
theorem generation_failure_terminal :
    (∀ (env : GenEnv) (d : Option Profile) (s : Session),
      s.kundliData = none → s.chartData = none → s.isGeneratingKundli = false →
      (env.kundliResp.success = false ∨ env.kundliResp.chart_data = none) →
      generateKundli env d s =
        ({ s with
            isGeneratingKundli := false
            isGeneratingChart := true
            currentStep := .generating
            messages := s.messages ++ [panditM s.nextId genErrorText]
            nextId := s.nextId + 1 },
          ⟨1, 0, none⟩)) ∧
    (∀ (env : GenEnv) (d : Option Profile) (s : Session) (kd : String),
      s.kundliData = none → s.chartData = none → s.isGeneratingKundli = false →
      env.kundliResp.success = true → env.kundliResp.chart_data = some kd →
      (env.chartResp.success = false ∨ env.chartResp.chart_data = none) →
      generateKundli env d s =
        ({ s with
            kundliData := some kd
            isGeneratingKundli := false
            isGeneratingChart := true
            currentStep := .generating
            messages := s.messages ++
              [panditM s.nextId (kundliSuccessText s.userProfile.name),
               panditM (s.nextId + 1) genErrorText]
            nextId := s.nextId + 2 },
          ⟨1, 1, none⟩)) ∧
    (∀ (cenv : ChatEnv) (input : String) (s : Session),
      s.currentStep = .generating → (jsTrimL input.data).isEmpty = false →
      (∀ m ∈ s.messages, m.isTyping = false) →
      handleSendMessage cenv input s =
        ({ s with
            messages := s.messages ++ [userM s.nextId input,
              panditM (s.nextId + 3) generatingWaitText]
            nextId := s.nextId + 4
            isBotTyping := false
            currentStep := .generating }, noTrace)) := by
  refine ⟨?_, ?_, ?_⟩
  · intro env d s hk hc hig hfail
    exact generateKundli_kundliFail env d s hk hc hig hfail
  · intro env d s kd hk hc hig h1 h2 hfail
    exact generateKundli_chartFail env d s kd hk hc hig h1 h2 hfail
  · intro cenv input s hstep hne hnt
    unfold handleSendMessage
    rw [hne, hstep]
    simp only [Bool.false_eq_true, if_false]
    have hch : ∀ nid : Nat, chunkMsgs (splitParts generatingWaitText) nid =
        ([panditM (nid + 1) generatingWaitText], nid + 2) := by
      intro nid
      rw [show splitParts generatingWaitText = [generatingWaitText] from by decide]
      simp only [chunkMsgs]
      rw [show (jsTrimL generatingWaitText.data).asString = generatingWaitText from by decide]
    simp only [dialogReply, pipelineFinish, hch]
    have hfil : ((s.messages ++ [userM s.nextId input]) ++ [typingM (s.nextId + 1)]).filter
        (fun m => !m.isTyping) = s.messages ++ [userM s.nextId input] := by
      simp [List.filter_append, filter_noTyping s.messages hnt, userM, typingM]
    rw [hfil]
    simp [Session.mk.injEq]

/-- **C4** (witness). -/
theorem generation_failure_terminal_witness :
    generateKundli ⟨⟨false, none⟩, ⟨true, some "C"⟩, 0, 500⟩ none initialSession =
      ({ initialSession with
          isGeneratingKundli := false
          isGeneratingChart := true
          currentStep := .generating
          messages := initialSession.messages ++ [panditM initialSession.nextId genErrorText]
          nextId := initialSession.nextId + 1 },
        ⟨1, 0, none⟩) ∧
    handleSendMessage ⟨some "r", ⟨⟨true, some "K"⟩, ⟨true, some "C"⟩, 0, 500⟩⟩ "hello"
        { initialSession with currentStep := .generating } =
      ({ { initialSession with currentStep := .generating } with
          messages := { initialSession with currentStep := .generating }.messages ++
            [userM 3 "hello", panditM 6 generatingWaitText]
          nextId := 7
          isBotTyping := false
          currentStep := .generating }, noTrace) := by
  constructor
  · exact generation_failure_terminal.1 ⟨⟨false, none⟩, ⟨true, some "C"⟩, 0, 500⟩ none
      initialSession rfl rfl rfl (Or.inl rfl)
  · exact generation_failure_terminal.2.2 ⟨some "r", ⟨⟨true, some "K"⟩, ⟨true, some "C"⟩, 0, 500⟩⟩
      "hello" { initialSession with currentStep := .generating } rfl (by decide) (by decide)

set_option maxRecDepth 8000 in
/-- **C7**: from `ask_name` with an empty profile, the inputs "Mera naam
Rajesh hai", "15/05/1990", "2:30 PM", "Delhi" set `name = "Rajesh"` (step
`ask_dob`), `dob = "1990-05-15"` (step `ask_tob`), `tob = "14:30:00"` (step
`ask_place`), `place = "Delhi"` (step `confirm_details`, with a summary
message listing all four fields); and in each ask step, an input failing that
step's parser leaves the profile and the step unchanged and appends only the
re-prompt. -/
theorem stepwise_dialog_scenario :
    (∀ env : ChatEnv,
      (scenarioS1 env).userProfile.name = "Rajesh" ∧
      (scenarioS1 env).currentStep = .ask_dob ∧
      (scenarioS2 env).userProfile.dob = "1990-05-15" ∧
      (scenarioS2 env).currentStep = .ask_tob ∧
      (scenarioS3 env).userProfile.tob = "14:30:00" ∧
      (scenarioS3 env).currentStep = .ask_place ∧
      (scenarioS4 env).userProfile.place = "Delhi" ∧
      (scenarioS4 env).currentStep = .confirm_details ∧
      (scenarioS4 env).messages.getLast? = some (panditM 18
        (confirmSummary ⟨"Rajesh", "1990-05-15", "14:30:00", "Delhi", "Asia/Kolkata"⟩))) ∧
    (∀ (env : ChatEnv) (input : String) (s : Session),
      s.currentStep = .ask_name → (jsTrimL input.data).isEmpty = false →
      (∀ m ∈ s.messages, m.isTyping = false) → askNameExtract input = none →
      handleSendMessage env input s =
        ({ s with
            messages := s.messages ++ [userM s.nextId input,
              panditM (s.nextId + 3) askNameFailText]
            nextId := s.nextId + 4
            isBotTyping := false
            userProfile := s.userProfile
            currentStep := .ask_name }, noTrace)) ∧
    (∀ (env : ChatEnv) (input : String) (s : Session),
      s.currentStep = .ask_dob → (jsTrimL input.data).isEmpty = false →
      (∀ m ∈ s.messages, m.isTyping = false) →
      (∀ d, parseDob input = some d → isValidDate d = false) →
      handleSendMessage env input s =
        ({ s with
            messages := s.messages ++ [userM s.nextId input,
              panditM (s.nextId + 3) askDobFailText]
            nextId := s.nextId + 4
            isBotTyping := false
            userProfile := s.userProfile
            currentStep := .ask_dob }, noTrace)) ∧
    (∀ (env : ChatEnv) (input : String) (s : Session),
      s.currentStep = .ask_tob → (jsTrimL input.data).isEmpty = false →
      (∀ m ∈ s.messages, m.isTyping = false) →
      (∀ t, parseTob input = some t → isValidTime t = false) →
      handleSendMessage env input s =
        ({ s with
            messages := s.messages ++ [userM s.nextId input,
              panditM (s.nextId + 3) askTobFailText]
            nextId := s.nextId + 4
            isBotTyping := false
            userProfile := s.userProfile
            currentStep := .ask_tob }, noTrace)) ∧
    (∀ (env : ChatEnv) (input : String) (s : Session),
      s.currentStep = .ask_place → (jsTrimL input.data).isEmpty = false →
      (∀ m ∈ s.messages, m.isTyping = false) → parsePlace input = none →
      handleSendMessage env input s =
        ({ s with
            messages := s.messages ++ [userM s.nextId input,
              panditM (s.nextId + 3) askPlaceFailText]
            nextId := s.nextId + 4
            isBotTyping := false
            userProfile := s.userProfile
            currentStep := .ask_place }, noTrace)) := by
  refine ⟨?_, ?_, ?_, ?_, ?_⟩
  · intro env
    exact ⟨rfl, rfl, rfl, rfl, rfl, rfl, rfl, rfl, rfl⟩
  · intro env input s hstep hne hnt hfail
    have hdr : dialogReply s.userProfile s.currentStep input =
        ⟨s.userProfile, .ask_name, askNameFailText⟩ := by
      rw [hstep]
      simp only [dialogReply, hfail]
    exact handleSend_pipeline_single env input s _ (Or.inl (by rw [hstep]; rfl)) hdr hne hnt
      (show splitParts askNameFailText = [askNameFailText] by decide)
      (show (jsTrimL askNameFailText.data).asString = askNameFailText by decide)
  · intro env input s hstep hne hnt hfail
    have hdr : dialogReply s.userProfile s.currentStep input =
        ⟨s.userProfile, .ask_dob, askDobFailText⟩ := by
      rw [hstep]
      simp only [dialogReply]
      cases hpd : parseDob input with
      | none => rfl
      | some d => simp [hfail d hpd]
    exact handleSend_pipeline_single env input s _ (Or.inl (by rw [hstep]; rfl)) hdr hne hnt
      (show splitParts askDobFailText = [askDobFailText] by decide)
      (show (jsTrimL askDobFailText.data).asString = askDobFailText by decide)
  · intro env input s hstep hne hnt hfail
    have hdr : dialogReply s.userProfile s.currentStep input =
        ⟨s.userProfile, .ask_tob, askTobFailText⟩ := by
      rw [hstep]
      simp only [dialogReply]
      cases hpt : parseTob input with
      | none => rfl
      | some t => simp [hfail t hpt]
    exact handleSend_pipeline_single env input s _ (Or.inl (by rw [hstep]; rfl)) hdr hne hnt
      (show splitParts askTobFailText = [askTobFailText] by decide)
      (show (jsTrimL askTobFailText.data).asString = askTobFailText by decide)
  · intro env input s hstep hne hnt hfail
    have hdr : dialogReply s.userProfile s.currentStep input =
        ⟨s.userProfile, .ask_place, askPlaceFailText⟩ := by
      rw [hstep]
      simp only [dialogReply, hfail]
    exact handleSend_pipeline_single env input s _ (Or.inl (by rw [hstep]; rfl)) hdr hne hnt
      (show splitParts askPlaceFailText = [askPlaceFailText] by decide)
      (show (jsTrimL askPlaceFailText.data).asString = askPlaceFailText by decide)

set_option maxRecDepth 8000 in
/-- **C7** (witness). -/
theorem stepwise_dialog_scenario_witness :
    (scenarioS1 ⟨some "r", ⟨⟨true, some "K"⟩, ⟨true, some "C"⟩, 0, 500⟩⟩).userProfile.name =
      "Rajesh" ∧
    handleSendMessage ⟨some "r", ⟨⟨true, some "K"⟩, ⟨true, some "C"⟩, 0, 500⟩⟩ "123"
        initialSession =
      ({ initialSession with
          messages := initialSession.messages ++ [userM 3 "123", panditM 6 askNameFailText]
          nextId := 7
          isBotTyping := false
          userProfile := initialSession.userProfile
          currentStep := .ask_name }, noTrace) := by
  constructor
  · exact (stepwise_dialog_scenario.1 ⟨some "r", ⟨⟨true, some "K"⟩, ⟨true, some "C"⟩, 0, 500⟩⟩).1
  · exact stepwise_dialog_scenario.2.1 ⟨some "r", ⟨⟨true, some "K"⟩, ⟨true, some "C"⟩, 0, 500⟩⟩
      "123" initialSession rfl (by decide) (by decide) (by decide)

set_option maxRecDepth 8000 in
/-- **C8**: in `confirm_details`, the input "change dob: 1990-05-15"
re-validates the new value, updates only the dob field of the profile — name,
tob and place are unchanged — stays in `confirm_details`, and re-emits a full
confirmation summary showing all four fields. -/
theorem change_dob_updates_only_dob :
    (∀ p : Profile,
      dialogReply p .confirm_details "change dob: 1990-05-15" =
        ⟨{ p with dob := "1990-05-15" }, .confirm_details,
         changeSummary { p with dob := "1990-05-15" }⟩) ∧
    (∀ (env : ChatEnv) (s : Session),
      s.currentStep = .confirm_details → s.userProfile = profC8 →
      (∀ m ∈ s.messages, m.isTyping = false) →
      handleSendMessage env "change dob: 1990-05-15" s =
        ({ s with
            messages := s.messages ++ [userM s.nextId "change dob: 1990-05-15",
              panditM (s.nextId + 3) (changeSummary { profC8 with dob := "1990-05-15" })]
            nextId := s.nextId + 4
            isBotTyping := false
            userProfile := { profC8 with dob := "1990-05-15" }
            currentStep := .confirm_details }, noTrace)) := by
  constructor
  · intro p
    rfl
  · intro env s hstep hprof hnt
    have hdr : dialogReply s.userProfile s.currentStep "change dob: 1990-05-15" =
        ⟨{ profC8 with dob := "1990-05-15" }, .confirm_details,
         changeSummary { profC8 with dob := "1990-05-15" }⟩ := by
      rw [hstep, hprof]
      rfl
    exact handleSend_pipeline_single env _ s _ (Or.inr ⟨hstep, by decide⟩) hdr (by decide) hnt
      (show splitParts (changeSummary { profC8 with dob := "1990-05-15" }) =
        [changeSummary { profC8 with dob := "1990-05-15" }] by decide)
      (show (jsTrimL (changeSummary { profC8 with dob := "1990-05-15" }).data).asString =
        changeSummary { profC8 with dob := "1990-05-15" } by decide)

set_option maxRecDepth 8000 in
/-- **C8** (witness). -/
theorem change_dob_updates_only_dob_witness :
    handleSendMessage ⟨some "r", ⟨⟨true, some "K"⟩, ⟨true, some "C"⟩, 0, 500⟩⟩
        "change dob: 1990-05-15"
        { initialSession with currentStep := .confirm_details, userProfile := profC8 } =
      ({ { initialSession with currentStep := .confirm_details, userProfile := profC8 } with
          messages := initialMessages ++ [userM 3 "change dob: 1990-05-15",
            panditM 6 (changeSummary { profC8 with dob := "1990-05-15" })]
          nextId := 7
          isBotTyping := false
          userProfile := { profC8 with dob := "1990-05-15" }
          currentStep := .confirm_details }, noTrace) := by
  exact change_dob_updates_only_dob.2 ⟨some "r", ⟨⟨true, some "K"⟩, ⟨true, some "C"⟩, 0, 500⟩⟩
    { initialSession with currentStep := .confirm_details, userProfile := profC8 }
    rfl rfl (by decide)

/-- **C9**: a session refresh resets the transcript and profile to their
initial values, clears the generation guard and cancels any pending
auto-generation debounce timer; a subsequent session entered with a complete
pre-filled profile schedules the debounce auto-generation with the guard set,
and its firing generates exactly once — one chart-data call, one visual-chart
call, one chart-kind message — after which any further orchestrator
invocation is a no-op. -/
theorem refresh_then_regenerate_once (s : Session) (hig : s.isGeneratingKundli = false)
    (ud : Profile) (hn : ud.name ≠ "") (hd : ud.dob ≠ "") (ht : ud.tob ≠ "")
    (hp : ud.place ≠ "")
    (genv : GenEnv) (kd cd : String)
    (h1 : genv.kundliResp.success = true) (h2 : genv.kundliResp.chart_data = some kd)
    (h3 : genv.chartResp.success = true) (h4 : genv.chartResp.chart_data = some cd) :
    (resetSession s).messages = initialMessages ∧
    (resetSession s).userProfile = emptyProfile ∧
    (resetSession s).hasGenerated = false ∧
    (resetSession s).generationTimer = none ∧
    (prefill ud (resetSession s)).hasGenerated = true ∧
    (prefill ud (resetSession s)).generationTimer =
      some { name := ud.name, dob := ud.dob, tob := ud.tob, place := ud.place,
             timezone := if ud.timezone = "" then "Asia/Kolkata" else ud.timezone } ∧
    (fireTimer genv (prefill ud (resetSession s))).2.kundliCalls = 1 ∧
    (fireTimer genv (prefill ud (resetSession s))).2.chartCalls = 1 ∧
    chartCount (fireTimer genv (prefill ud (resetSession s))).1.messages = 1 ∧
    (fireTimer genv (prefill ud (resetSession s))).1.generationTimer = none ∧
    (∀ (genv2 : GenEnv) (d2 : Option Profile),
      generateKundli genv2 d2 (fireTimer genv (prefill ud (resetSession s))).1 =
        ((fireTimer genv (prefill ud (resetSession s))).1, noTrace)) := by
  have hpre : prefill ud (resetSession s) =
      { messages := prefillMessages ud.name
        userProfile := { name := ud.name, dob := ud.dob, tob := ud.tob, place := ud.place,
                         timezone := if ud.timezone = "" then "Asia/Kolkata" else ud.timezone }
        kundliData := none
        chartData := none
        isGeneratingKundli := s.isGeneratingKundli
        isGeneratingChart := s.isGeneratingChart
        currentStep := .generating
        hasGenerated := true
        generationTimer := some { name := ud.name, dob := ud.dob, tob := ud.tob,
                                  place := ud.place,
                                  timezone := if ud.timezone = "" then "Asia/Kolkata"
                                              else ud.timezone }
        nextId := s.nextId
        isBotTyping := s.isBotTyping } := by
    unfold prefill resetSession
    simp [hn, hd, ht, hp, emptyProfile]
  have hm0 : hasChart (prefillMessages ud.name) = false :=
    (hasChart_eq_false_iff _).2 (chartCount_prefillMessages _)
  have hrun := generateKundli_success genv
    (some { name := ud.name, dob := ud.dob, tob := ud.tob, place := ud.place,
            timezone := if ud.timezone = "" then "Asia/Kolkata" else ud.timezone })
    { messages := prefillMessages ud.name
      userProfile := { name := ud.name, dob := ud.dob, tob := ud.tob, place := ud.place,
                       timezone := if ud.timezone = "" then "Asia/Kolkata" else ud.timezone }
      kundliData := none
      chartData := none
      isGeneratingKundli := s.isGeneratingKundli
      isGeneratingChart := s.isGeneratingChart
      currentStep := .generating
      hasGenerated := true
      generationTimer := none
      nextId := s.nextId
      isBotTyping := s.isBotTyping } kd cd rfl rfl hig hm0 h1 h2 h3 h4
  have hfire : fireTimer genv (prefill ud (resetSession s)) =
      generateKundli genv
        (some { name := ud.name, dob := ud.dob, tob := ud.tob, place := ud.place,
                timezone := if ud.timezone = "" then "Asia/Kolkata" else ud.timezone })
        { messages := prefillMessages ud.name
          userProfile := { name := ud.name, dob := ud.dob, tob := ud.tob, place := ud.place,
                           timezone := if ud.timezone = "" then "Asia/Kolkata" else ud.timezone }
          kundliData := none
          chartData := none
          isGeneratingKundli := s.isGeneratingKundli
          isGeneratingChart := s.isGeneratingChart
          currentStep := .generating
          hasGenerated := true
          generationTimer := none
          nextId := s.nextId
          isBotTyping := s.isBotTyping } := by
    rw [hpre]
    rfl
  refine ⟨rfl, rfl, rfl, rfl, ?_, ?_, ?_, ?_, ?_, ?_, ?_⟩
  · rw [hpre]
  · rw [hpre]
  · rw [hfire, hrun]
  · rw [hfire, hrun]
  · rw [hfire, hrun]
    simp [chartCount, List.filter_append, panditM, chartM, prefillMessages]
  · rw [hfire, hrun]
  · intro genv2 d2
    rw [hfire, hrun]
    refine generateKundli_skip _ _ _ rfl (Or.inr (Or.inl rfl))

/-- **C9** (witness). -/
theorem refresh_then_regenerate_once_witness :
    (fireTimer ⟨⟨true, some "K"⟩, ⟨true, some "C"⟩, 5, 300⟩
      (prefill ⟨"Asha", "1990-05-15", "09:30:00", "Pune", "Asia/Kolkata"⟩
        (resetSession ⟨initialMessages, emptyProfile, none, none, false, true, .generating,
          true, some ⟨"A", "B", "C", "D", "E"⟩, 7, false⟩))).2.kundliCalls = 1 ∧
    (resetSession (⟨initialMessages, emptyProfile, none, none, false, true, .generating,
      true, some ⟨"A", "B", "C", "D", "E"⟩, 7, false⟩ : Session)).generationTimer = none := by
  have h := refresh_then_regenerate_once
    ⟨initialMessages, emptyProfile, none, none, false, true, .generating, true,
      some ⟨"A", "B", "C", "D", "E"⟩, 7, false⟩ rfl
    ⟨"Asha", "1990-05-15", "09:30:00", "Pune", "Asia/Kolkata"⟩
    (by decide) (by decide) (by decide) (by decide)
    ⟨⟨true, some "K"⟩, ⟨true, some "C"⟩, 5, 300⟩ "K" "C" rfl rfl rfl rfl
  exact ⟨h.2.2.2.2.2.2.1, h.2.2.2.1⟩

/-- **C2**: in every reachable session state the transcript contains at most
one chart-kind message; in particular the guarded chart append leaves the
transcript (and the id counter) unchanged when a chart-kind message is already
present. -/
theorem at_most_one_chart_message :
    (∀ (ok : FormData → Prop) (s : Session), Reach ok s → chartCount s.messages ≤ 1) ∧
    (∀ (cd : String) (nid : Nat) (msgs : List Message),
      hasChart msgs = true → appendChartMessage cd nid msgs = (msgs, nid)) := by
  constructor
  · exact reach_chartCount
  · intro cd nid msgs h
    simp [appendChartMessage, h]

/-- **C2** (witness). -/
theorem at_most_one_chart_message_witness :
    chartCount initialSession.messages ≤ 1 ∧
    appendChartMessage "C" 5 [chartM 4 "X"] = ([chartM 4 "X"], 5) := by
  constructor
  · exact at_most_one_chart_message.1 (fun _ => True) initialSession Reach.init
  · exact at_most_one_chart_message.2 "C" 5 [chartM 4 "X"] (by decide)

/-- **C10** (counterexample): the claimed reachable-state invariant fails via
the form path: `validateForm`'s time regex admits the single-digit-hour value
`"9:30"`, `handleSubmit` appends `":00"`, and the prefilled profile of a
reachable state stores `tob = "9:30:00"`, which does not match `HH:MM:SS`
(`isValidTime` rejects it). -/
theorem profile_tob_invariant_fails_via_form :
    handleSubmitForm 1760140800000 ⟨"Asha", "1990-05-15", "9:30", "Pune", "Asia/Kolkata"⟩ =
      some ⟨"Asha", "1990-05-15", "9:30:00", "Pune", "Asia/Kolkata"⟩ ∧
    Reach (fun _ => True)
      (prefill ⟨"Asha", "1990-05-15", "9:30:00", "Pune", "Asia/Kolkata"⟩ initialSession) ∧
    (prefill ⟨"Asha", "1990-05-15", "9:30:00", "Pune", "Asia/Kolkata"⟩
        initialSession).userProfile.tob = "9:30:00" ∧
    ¬((prefill ⟨"Asha", "1990-05-15", "9:30:00", "Pune", "Asia/Kolkata"⟩
        initialSession).userProfile.tob = "" ∨
      isValidTime (prefill ⟨"Asha", "1990-05-15", "9:30:00", "Pune", "Asia/Kolkata"⟩
        initialSession).userProfile.tob = true) := by
  refine ⟨by decide, ?_, by decide, by decide⟩
  exact Reach.form 1760140800000 ⟨"Asha", "1990-05-15", "9:30", "Pune", "Asia/Kolkata"⟩ _
    Reach.init trivial (by decide)

/-- **C10** (amended): every dialog operation that writes `dob` or `tob`
(the `ask_dob`/`ask_tob` steps and the `confirm_details` change command)
stores only values passing the controller's checks, so over all states
reachable with form inputs from the browser's date/time controls (a
calendar-valid `YYYY-MM-DD` date and a two-digit-hour `HH:MM` time, to which
the form appends `":00"`), the profile invariant holds: `dob` is empty or
`isValidDate`, and `tob` is empty or matches `HH:MM:SS` exactly. -/
theorem profile_field_validity :
    ∀ (ok : FormData → Prop), (∀ fd, ok fd → formFieldsOk fd) →
      ∀ s : Session, Reach ok s → profileOk s.userProfile := by
  exact reach_profileOk

/-- **C10** (witness). -/
theorem profile_field_validity_witness :
    profileOk (prefill ⟨"Asha", "1990-05-15", "09:30:00", "Pune", "Asia/Kolkata"⟩
      initialSession).userProfile :=
  profile_field_validity formFieldsOk (fun _ h => h) _
    (Reach.form 1760140800000 ⟨"Asha", "1990-05-15", "09:30", "Pune", "Asia/Kolkata"⟩ _
      Reach.init ⟨by decide, by decide⟩ (by decide))

/-- **C3** (witness). -/
theorem chart_reveal_min_delay_witness :
    (generateKundli ⟨⟨true, some "K"⟩, ⟨true, some "C"⟩, 123, 700⟩ none
        initialSession).2.chartRevealElapsed =
      some (minDelayMs ⟨⟨true, some "K"⟩, ⟨true, some "C"⟩, 123, 700⟩) ∧
    8000 ≤ minDelayMs ⟨⟨true, some "K"⟩, ⟨true, some "C"⟩, 123, 700⟩ ∧
    minDelayMs ⟨⟨true, some "K"⟩, ⟨true, some "C"⟩, 123, 700⟩ < 10000 := by
  exact chart_reveal_min_delay ⟨⟨true, some "K"⟩, ⟨true, some "C"⟩, 123, 700⟩ none
    initialSession "K" "C" rfl rfl rfl rfl rfl rfl rfl (by decide)

end Astrochat
